import Mathlib

/-! Stratux sensor orchestration, `main/sensors.go`.

A shallow embedding of the sensor loops of `main/sensors.go` and the properties
of its specification that can be settled on it.

Modelling conventions.

* `float64` values are exact rationals (`ℚ`).  The orientation matrix only ever
  holds `0`, `+1` and `-1`, for which float arithmetic is exact.
* `time.Time` values are integers counting nanoseconds since the Unix epoch;
  `Time.Sub` saturates at the bounds of a 64-bit `Duration` and `UnixNano` wraps
  to 64 bits, as the Go library does.
* `uint8` counters are naturals reduced modulo `256` after every increment.
* Calls to external collaborators (drivers, the fusion provider, persistence,
  the log) are recorded, in order, in a trace of `Event`s; what a collaborator
  returns is an input of the step that calls it.
* A Go run-time panic (index out of range) is the result `none`.
* Each loop is modelled as run by itself: the globals it reads are only changed
  by the loop's own assignments between two of its ticks.
-/

namespace Stratux

/-! ## Data model -/

/-- Observable actions of the loops, in the order they happen: the calls to
collaborators outside `sensors.go`, and the clearing of a connected flag. -/
inductive Event where
  | logLine                 -- log.Println / log.Printf
  | saveSettings            -- saveSettings()
  | timerTick               -- a receive on the loop's ticker channel
  | readTemperature         -- myPressureReader.Temperature()
  | readPressure            -- myPressureReader.Pressure()
  | closePressureReader     -- myPressureReader.Close()
  | clearBMPConnected       -- globalStatus.BMPConnected = false
  | calibrateIMU            -- myIMUReader.Calibrate(1, 1)
  | readIMU                 -- myIMUReader.Read()
  | closeIMU                -- myIMUReader.Close()
  | clearIMUConnected       -- globalStatus.IMUConnected = false
  | fusionReset             -- s.Reset()
  | fusionCompute           -- s.Compute(m)
  | makeReport              -- makeAHRSGDL90Report()
  | listenerSend            -- ahrswebListener.Send(...)
  | newLogger               -- ahrs.NewAHRSLogger(...)
  | loggerLog               -- analysisLogger.Log()
  deriving DecidableEq, Repr

/-- One row of a Go `[3]float64`. -/
structure Vec3 where
  x : ℚ
  y : ℚ
  z : ℚ
  deriving DecidableEq, Repr

/-- A Go `[3][3]float64`, row by row. -/
structure Mat3 where
  r0 : Vec3
  r1 : Vec3
  r2 : Vec3
  deriving DecidableEq, Repr

/-- The zero row. -/
def Vec3.zero : Vec3 := ⟨0, 0, 0⟩

/-- The value of `new([3][3]float64)`. -/
def Mat3.zero : Mat3 := ⟨Vec3.zero, Vec3.zero, Vec3.zero⟩

/-- Bounds-checked store `v[i] = a`; `none` is the index-out-of-range panic. -/
def Vec3.set (v : Vec3) (i : Int) (a : ℚ) : Option Vec3 :=
  if i = 0 then some { v with x := a }
  else if i = 1 then some { v with y := a }
  else if i = 2 then some { v with z := a }
  else none

/-- Two's-complement wrap of a Go `int` (64 bits). -/
def wrapInt64 (n : Int) : Int := (n + 2 ^ 63) % 2 ^ 64 - 2 ^ 63

/-- The fields of `globalSettings` that `sensors.go` uses. -/
structure Settings where
  IMU_Sensor_Enabled : Bool
  BMP_Sensor_Enabled : Bool
  IMUMapping : Int × Int
  AHRSLog : Bool
  deriving DecidableEq, Repr

/-! ## `makeSensorRotationMatrix` -/

/-- The defaulting step of `makeSensorRotationMatrix` (lines 312-316): when
`IMUMapping[0]` is zero both selectors are overwritten and the settings saved. -/
def defaultMapping (g : Settings) : Settings × List Event :=
  if g.IMUMapping.1 = 0 then
    ({ g with IMUMapping := (-1, -3) }, [Event.saveSettings])
  else (g, [])

/-- The column index a selector `s` addresses: `-s-1` when negative, `+s-1`
otherwise (lines 320-330). -/
def selectorIndex (s : Int) : Int :=
  if s < 0 then wrapInt64 (wrapInt64 (-s) - 1) else wrapInt64 (s - 1)

/-- The value a selector `s` stores: `-1` when negative, `+1` otherwise. -/
def selectorValue (s : Int) : ℚ := if s < 0 then -1 else 1

/-- The "left wing" row, lines 332-334, from the forward row `a` and up row `c`. -/
def leftRow (a c : Vec3) : Vec3 :=
  ⟨c.y * a.z - c.z * a.y, c.z * a.x - c.x * a.z, c.x * a.y - c.y * a.x⟩

/-- The matrix built from the selectors `f` (lines 317-335); `none` when a
store is out of range. -/
def buildMatrix (f : Int × Int) : Option Mat3 :=
  let ff := Mat3.zero
  match ff.r0.set (selectorIndex f.1) (selectorValue f.1) with
  | none => none
  | some row0 =>
    let ff0 := { ff with r0 := row0 }
    match ff0.r2.set (selectorIndex f.2) (selectorValue f.2) with
    | none => none
    | some row2 =>
      let ff2 := { ff0 with r2 := row2 }
      some { ff2 with r1 := leftRow ff2.r0 ff2.r2 }

/-- The function `makeSensorRotationMatrix`: the settings after the call, the
collaborator calls made, and the matrix returned (`none` on a panic). -/
def makeSensorRotationMatrix (g : Settings) : Settings × List Event × Option Mat3 :=
  let d := defaultMapping g
  (d.1, d.2, buildMatrix d.1.IMUMapping)

/-! ## Matrix algebra used to state orthonormality -/

/-- Entry `j` of a row. -/
def Vec3.get (v : Vec3) : Fin 3 → ℚ
  | 0 => v.x
  | 1 => v.y
  | 2 => v.z

/-- Row `i` of a matrix. -/
def Mat3.row (m : Mat3) : Fin 3 → Vec3
  | 0 => m.r0
  | 1 => m.r1
  | 2 => m.r2

/-- A `Mat3` as a Mathlib matrix. -/
def Mat3.toMatrix (m : Mat3) : Matrix (Fin 3) (Fin 3) ℚ :=
  Matrix.of fun i j => (m.row i).get j

/-- The signed unit vector a selector in `{±1, ±2, ±3}` stands for. -/
def signedUnit (s : Int) : Vec3 :=
  let v : ℚ := if s < 0 then -1 else 1
  if s.natAbs = 1 then ⟨v, 0, 0⟩
  else if s.natAbs = 2 then ⟨0, v, 0⟩
  else ⟨0, 0, v⟩

/-- The cross product `a × b`. -/
def Vec3.cross (a b : Vec3) : Vec3 :=
  ⟨a.y * b.z - a.z * b.y, a.z * b.x - a.x * b.z, a.x * b.y - a.y * b.x⟩

/-- The dot product. -/
def Vec3.dot (a b : Vec3) : ℚ := a.x * b.x + a.y * b.y + a.z * b.z

/-- Settings with both sensors enabled and selectors `(forward, up)`. -/
def settingsWith (forward up : Int) : Settings :=
  { IMU_Sensor_Enabled := true, BMP_Sensor_Enabled := true, IMUMapping := (forward, up),
    AHRSLog := false }

/-- The settings after `n` successive calls of `makeSensorRotationMatrix`. -/
def settingsAfterCalls : Nat → Settings → Settings
  | 0, g => g
  | n + 1, g => settingsAfterCalls n (makeSensorRotationMatrix g).1

/-- The valid selector values. -/
def validSelector (s : Int) : Prop := s = -3 ∨ s = -2 ∨ s = -1 ∨ s = 1 ∨ s = 2 ∨ s = 3

/-! ## Shared state -/

/-- The fields of `globalStatus` that `sensors.go` uses. -/
structure Status where
  IMUConnected : Bool
  BMPConnected : Bool
  deriving DecidableEq, Repr

/-- The fields of `mySituation` that `sensors.go` reads or writes. -/
structure Situation where
  BaroLastMeasurementTime : Int
  BaroTemperature : ℚ
  BaroPressureAltitude : ℚ
  BaroVerticalSpeed : ℚ
  GPSLastGroundTrackTime : Int
  GPSGroundSpeed : ℚ
  GPSTrueCourse : ℚ
  GPSVerticalSpeed : ℚ
  AHRSRoll : ℚ
  AHRSPitch : ℚ
  AHRSGyroHeading : ℚ
  AHRSMagHeading : ℚ
  AHRSSlipSkid : ℚ
  AHRSTurnRate : ℚ
  AHRSGLoad : ℚ
  AHRSLastAttitudeTime : Int
  AHRSStatus : Nat

/-- The package-level state the loops share, with the trace of actions so far.
`analysisLogger` is `true` when the Go pointer is non-nil. -/
structure World where
  globalSettings : Settings
  globalStatus : Status
  mySituation : Situation
  ahrsCalibrating : Bool
  analysisLogger : Bool
  trace : List Event

/-- Append actions to the trace. -/
def World.emit (w : World) (es : List Event) : World :=
  { w with trace := w.trace ++ es }

/-- Pure collaborators and constants that live outside `sensors.go`:
`CalcAltitude`, `math.Sin`, `math.Cos` and `ahrs.Deg`. -/
structure Ext where
  CalcAltitude : ℚ → ℚ
  sin : ℚ → ℚ
  cos : ℚ → ℚ
  Deg : ℚ

/-- Whether a loop is blocked on its ticker or has left its `for`. -/
inductive LoopStatus where
  | waiting
  | exited
  deriving DecidableEq, Repr

/-- The constant `numRetries` (line 18). -/
def numRetries : Nat := 5

/-- The increment `failnum++` of a `uint8`. -/
def incUint8 (n : Nat) : Nat := (n + 1) % 256

/-- The smallest `time.Duration`. -/
def minDuration : Int := -(2 ^ 63)

/-- The largest `time.Duration`. -/
def maxDuration : Int := 2 ^ 63 - 1

/-- The Go library's `t.Sub(u)` on instants given in nanoseconds: the difference,
saturated to the range of a `Duration`. -/
def timeSub (t u : Int) : Int :=
  if t - u < minDuration then minDuration
  else if maxDuration < t - u then maxDuration
  else t - u

/-- The constant `time.Millisecond`, in nanoseconds. -/
def Millisecond : Int := 1000000

/-- The Go library's `t.UnixNano()`: the nanoseconds since the Unix epoch as an
`int64`, which wraps for instants outside its range (Go's zero time among them). -/
def unixNano (t : Int) : Int := wrapInt64 t

/-- The expression `float64(t.UnixNano()/1000) / 1e6` (lines 206, 246); Go's
integer division truncates toward zero. -/
def unixSeconds (t : Int) : ℚ := ((Int.tdiv (unixNano t) 1000 : Int) : ℚ) / 1000000

/-! ## `tempAndPressureSender` -/

/-- The local `dt` of `tempAndPressureSender` (line 89). -/
def dt : ℚ := 1 / 10

/-- The smoothing constant `u := 5 / (5 + dt)` (line 94). -/
def u : ℚ := 5 / (5 + dt)

/-- The locals of `tempAndPressureSender` that live across iterations. -/
structure BaroLocals where
  altLast : ℚ
  failnum : Nat
  deriving DecidableEq, Repr

/-- The locals as declared at lines 83-91. -/
def BaroLocals.init : BaroLocals := { altLast := -9999, failnum := 0 }

/-- What the environment supplies during one tick of the barometric loop: the
clock and the two driver reads (`tempErr`, `pressErr` are `err != nil`). -/
structure BaroInput where
  now : Int
  temp : ℚ
  tempErr : Bool
  press : ℚ
  pressErr : Bool

/-- The loop condition of line 97. -/
def baroCondition (w : World) : Bool :=
  w.globalSettings.BMP_Sensor_Enabled && w.globalStatus.BMPConnected

/-- Lines 117-129: publish the sample and update the vertical speed. -/
def baroUpdate (x : Ext) (w : World) (l : BaroLocals) (i : BaroInput) : World × BaroLocals :=
  let altitude := x.CalcAltitude i.press
  let altLast := if l.altLast < -2000 then altitude else l.altLast
  let sit := { w.mySituation with
    BaroLastMeasurementTime := i.now
    BaroTemperature := i.temp
    BaroPressureAltitude := altitude
    BaroVerticalSpeed :=
      u * w.mySituation.BaroVerticalSpeed + (1 - u) * (altitude - altLast) / (dt / 60) }
  ({ w with mySituation := sit }, { l with altLast := altitude })

/-- One iteration of the loop body, lines 98-129.  The Boolean is `true` when the
body leaves through `break`. -/
def baroBody (x : Ext) (w : World) (l : BaroLocals) (i : BaroInput) :
    World × BaroLocals × Bool :=
  let w1 := w.emit [Event.timerTick, Event.readTemperature]
  let w2 := if i.tempErr then w1.emit [Event.logLine] else w1
  let w3 := w2.emit [Event.readPressure]
  if i.pressErr then
    let w4 := w3.emit [Event.logLine]
    let l4 := { l with failnum := incUint8 l.failnum }
    if l4.failnum > numRetries then
      let w5 := w4.emit [Event.logLine, Event.closePressureReader, Event.clearBMPConnected]
      ({ w5 with globalStatus := { w5.globalStatus with BMPConnected := false } }, l4, true)
    else
      let r := baroUpdate x w4 l4 i
      (r.1, r.2, false)
  else
    let r := baroUpdate x w3 l i
    (r.1, r.2, false)

/-- The `for` loop of lines 97-130, run over the ticks the environment supplies. -/
def baroLoop (x : Ext) : World → BaroLocals → List BaroInput → World × BaroLocals × LoopStatus
  | w, l, [] => (w, l, if baroCondition w then LoopStatus.waiting else LoopStatus.exited)
  | w, l, i :: rest =>
    if baroCondition w then
      let r := baroBody x w l i
      if r.2.2 then (r.1, r.2.1, LoopStatus.exited) else baroLoop x r.1 r.2.1 rest
    else (w, l, LoopStatus.exited)

/-- The function `tempAndPressureSender`: the loop entered with fresh locals. -/
def tempAndPressureSender (x : Ext) (w : World) (inputs : List BaroInput) :
    World × BaroLocals × LoopStatus :=
  baroLoop x w BaroLocals.init inputs

/-! ## `sensorAttitudeSender` -/

/-- The fields of `ahrs.Measurement` that `sensors.go` writes. -/
structure Measurement where
  T : ℚ
  A1 : ℚ
  A2 : ℚ
  A3 : ℚ
  B1 : ℚ
  B2 : ℚ
  B3 : ℚ
  M1 : ℚ
  M2 : ℚ
  M3 : ℚ
  SValid : Bool
  MValid : Bool
  TW : ℚ
  WValid : Bool
  W1 : ℚ
  W2 : ℚ
  W3 : ℚ

/-- The locals of `sensorAttitudeSender` that live across cycles: the measurement
`m`, the orientation matrix `ff`, the failure counter, and whether
`ahrswebListener` is non-nil. -/
structure AttLocals where
  m : Measurement
  ff : Mat3
  failnum : Nat
  listener : Bool

/-- What the environment supplies during one cycle of the attitude loop. -/
structure CycleInput where
  cage : Bool          -- a request is ready on the `cage` channel
  calibrateOk : Bool   -- `Calibrate(1, 1)` returns a nil error
  now : Int            -- `stratuxClock.Time`
  b1 : ℚ
  b2 : ℚ
  b3 : ℚ
  a1 : ℚ
  a2 : ℚ
  a3 : ℚ
  m1 : ℚ
  m2 : ℚ
  m3 : ℚ
  mpuError : Bool      -- `mpuError != nil`
  magError : Bool      -- `magError != nil`
  fusionValid : Bool   -- `s.Valid()`
  roll : ℚ
  pitch : ℚ
  heading : ℚ
  magHeading : ℚ
  slipSkid : ℚ
  rateOfTurn : ℚ
  gLoad : ℚ
  sendOk : Bool        -- `ahrswebListener.Send` returns a nil error
  usage : ℚ            -- `usage.Usage()`
  loggerOpened : Bool  -- `ahrs.NewAHRSLogger` returns a non-nil logger

/-- The loop condition of line 188. -/
def imuCondition (w : World) : Bool :=
  w.globalSettings.IMU_Sensor_Enabled && w.globalStatus.IMUConnected

/-- The `select` of lines 190-203.  Without a request nothing happens; with one,
the driver is calibrated, on success the matrix is rebuilt, and then the flag
is cleared and the provider reset.  `none` when the rebuild panics. -/
def cageStep (w : World) (l : AttLocals) (i : CycleInput) : Option (World × AttLocals) :=
  if i.cage then
    let w1 := { w with ahrsCalibrating := true }.emit [Event.calibrateIMU]
    if i.calibrateOk then
      let w2 := w1.emit [Event.logLine]
      let r := makeSensorRotationMatrix w2.globalSettings
      match r.2.2 with
      | none => none
      | some ff =>
        let w3 := { w2 with globalSettings := r.1 }.emit r.2.1
        some ({ w3 with ahrsCalibrating := false }.emit [Event.fusionReset], { l with ff := ff })
    else
      let w2 := w1.emit [Event.logLine]
      some ({ w2 with ahrsCalibrating := false }.emit [Event.fusionReset], l)
  else some (w, l)

/-- Lines 205-227: stamp the measurement, read the IMU and rotate the readings
into the body frame. -/
def readAndRotate (l : AttLocals) (i : CycleInput) : Measurement :=
  let ff := l.ff
  { l.m with
    T := unixSeconds i.now
    A1 := -(ff.r0.x * i.a1 + ff.r0.y * i.a2 + ff.r0.z * i.a3)
    A2 := -(ff.r1.x * i.a1 + ff.r1.y * i.a2 + ff.r1.z * i.a3)
    A3 := -(ff.r2.x * i.a1 + ff.r2.y * i.a2 + ff.r2.z * i.a3)
    B1 := ff.r0.x * i.b1 + ff.r0.y * i.b2 + ff.r0.z * i.b3
    B2 := ff.r1.x * i.b1 + ff.r1.y * i.b2 + ff.r1.z * i.b3
    B3 := ff.r2.x * i.b1 + ff.r2.y * i.b2 + ff.r2.z * i.b3
    M1 := ff.r0.x * i.m1 + ff.r0.y * i.m2 + ff.r0.z * i.m3
    M2 := ff.r1.x * i.m1 + ff.r1.y * i.m2 + ff.r1.z * i.m3
    M3 := ff.r2.x * i.m1 + ff.r2.y * i.m2 + ff.r2.z * i.m3
    SValid := !i.mpuError
    MValid := !i.magError }

/-- Lines 228-238: the branch taken on an IMU read error, ending in `continue`. -/
def imuFailure (w : World) (l : AttLocals) : World × AttLocals :=
  let w1 := w.emit [Event.logLine]
  let l1 := { l with failnum := incUint8 l.failnum }
  if l1.failnum > numRetries then
    let w2 := w1.emit [Event.logLine, Event.closeIMU, Event.clearIMUConnected]
    ({ w2 with globalStatus := { w2.globalStatus with IMUConnected := false } }, l1)
  else (w1, l1)

/-- Lines 246-256: the wind part of the measurement. -/
def windStep (x : Ext) (w : World) (m : Measurement) (now : Int) : Measurement :=
  let m1 := { m with
    TW := unixSeconds w.mySituation.GPSLastGroundTrackTime
    WValid := decide (timeSub now w.mySituation.GPSLastGroundTrackTime < 3000 * Millisecond) }
  if m1.WValid then
    { m1 with
      W1 := w.mySituation.GPSGroundSpeed * x.sin (w.mySituation.GPSTrueCourse * x.Deg)
      W2 := w.mySituation.GPSGroundSpeed * x.cos (w.mySituation.GPSTrueCourse * x.Deg)
      W3 := if baroCondition w then w.mySituation.BaroVerticalSpeed * 60 / (607612 / 100)
            else w.mySituation.GPSVerticalSpeed * 3600 / (607612 / 100) }
  else m1

/-- Lines 263-283: publish a valid attitude, or reset the provider. -/
def publishStep (x : Ext) (w : World) (i : CycleInput) : World :=
  if i.fusionValid then
    { w with mySituation := { w.mySituation with
        AHRSRoll := i.roll / x.Deg
        AHRSPitch := i.pitch / x.Deg
        AHRSGyroHeading := i.heading / x.Deg
        AHRSMagHeading := i.magHeading
        AHRSSlipSkid := i.slipSkid
        AHRSTurnRate := i.rateOfTurn
        AHRSGLoad := i.gLoad
        AHRSLastAttitudeTime := i.now } }
  else w.emit [Event.fusionReset]

/-- Lines 285-291: the debugging listener. -/
def listenerStep (w : World) (l : AttLocals) (i : CycleInput) : World × AttLocals :=
  if l.listener then
    let w1 := w.emit [Event.listenerSend]
    if i.sendOk then (w1, l) else (w1.emit [Event.logLine], { l with listener := false })
  else (w, l)

/-- Lines 293-306: the analysis log. -/
def analysisStep (w : World) (i : CycleInput) : World :=
  if w.globalSettings.AHRSLog && decide (i.usage < 95 / 100) then
    let w1 := if w.analysisLogger then w
              else { w with analysisLogger := i.loggerOpened }.emit [Event.newLogger]
    if w1.analysisLogger then w1.emit [Event.loggerLog] else w1
  else { w with analysisLogger := false }

/-- Lines 205-306: the cycle after the `select`. -/
def sampleStep (x : Ext) (w : World) (l : AttLocals) (i : CycleInput) : World × AttLocals :=
  let w1 := w.emit [Event.readIMU]
  let l1 := { l with m := readAndRotate l i }
  if i.mpuError then imuFailure w1 l1
  else
    let l2 := { l1 with failnum := 0 }
    let w2 := if i.magError then w1.emit [Event.logLine] else w1
    let l3 := if i.magError then { l2 with m := { l2.m with MValid := false } } else l2
    let l4 := { l3 with m := windStep x w2 l3.m i.now }
    let w3 := w2.emit [Event.fusionCompute, Event.makeReport]
    let w4 := publishStep x w3 i
    let r := listenerStep w4 l4 i
    (analysisStep r.1 i, r.2)

/-- One cycle of the inner loop body, lines 189-306. -/
def attitudeCycle (x : Ext) (w : World) (l : AttLocals) (i : CycleInput) :
    Option (World × AttLocals) :=
  match cageStep (w.emit [Event.timerTick]) l i with
  | none => none
  | some r => some (sampleStep x r.1 r.2 i)

/-- The inner `for` of lines 188-307, run over the cycles the environment
supplies; it is entered with `failnum = 0` (line 186). -/
def attitudeLoop (x : Ext) :
    World → AttLocals → List CycleInput → Option (World × AttLocals × LoopStatus)
  | w, l, [] => some (w, l, if imuCondition w then LoopStatus.waiting else LoopStatus.exited)
  | w, l, i :: rest =>
    if imuCondition w then
      match attitudeCycle x w l i with
      | none => none
      | some r => attitudeLoop x r.1 r.2 rest
    else some (w, l, LoopStatus.exited)

/-! ## `updateAHRSStatus` -/

/-- The addition `msg += k` on a `uint8`. -/
def addUint8 (msg k : Nat) : Nat := (msg + k) % 256

/-- The status byte computed by one pass of lines 387-409. -/
def statusByte (w : World) (now : Int) : Nat :=
  let msg0 := 0
  let msg1 := if timeSub now w.mySituation.GPSLastGroundTrackTime < 3000 * Millisecond
              then addUint8 msg0 1 else msg0
  let imu := w.globalSettings.IMU_Sensor_Enabled && w.globalStatus.IMUConnected
  let msg2 := if imu then addUint8 msg1 (1 <<< 1) else msg1
  let msg3 := if w.globalSettings.BMP_Sensor_Enabled && w.globalStatus.BMPConnected
              then addUint8 msg2 (1 <<< 2) else msg2
  let msg4 := if w.ahrsCalibrating then addUint8 msg3 (1 <<< 3) else msg3
  let msg5 := if imu && w.analysisLogger then addUint8 msg4 (1 <<< 4) else msg4
  msg5

/-- One tick of `updateAHRSStatus`, lines 386-410. -/
def updateAHRSStatus (w : World) (now : Int) : World :=
  let w1 := w.emit [Event.timerTick]
  { w1 with mySituation := { w1.mySituation with AHRSStatus := statusByte w1 now } }

/-! ## Vocabulary of the properties -/

/-- How often an action occurs in a trace. -/
def occurrences (e : Event) (t : List Event) : Nat := t.count e

/-- A situation with every field zero. -/
def Situation.zero : Situation :=
  { BaroLastMeasurementTime := 0, BaroTemperature := 0, BaroPressureAltitude := 0,
    BaroVerticalSpeed := 0, GPSLastGroundTrackTime := 0, GPSGroundSpeed := 0,
    GPSTrueCourse := 0, GPSVerticalSpeed := 0, AHRSRoll := 0, AHRSPitch := 0,
    AHRSGyroHeading := 0, AHRSMagHeading := 0, AHRSSlipSkid := 0, AHRSTurnRate := 0,
    AHRSGLoad := 0, AHRSLastAttitudeTime := 0, AHRSStatus := 0 }

/-- A world with both sensors enabled and connected, the default orientation,
nothing calibrating, no logger and an empty trace. -/
def World.sample : World :=
  { globalSettings := settingsWith (-1) (-3)
    globalStatus := { IMUConnected := true, BMPConnected := true }
    mySituation := Situation.zero
    ahrsCalibrating := false
    analysisLogger := false
    trace := [] }

/-- Collaborators used for concrete evaluation: the altitude is the pressure
itself, and the trigonometric functions are constant. -/
def Ext.sample : Ext := { CalcAltitude := fun p => p, sin := fun _ => 0, cos := fun _ => 1, Deg := 1 }

/-- A barometric tick whose reads succeed (`ok = true`) or whose pressure read
fails, with pressure `p`. -/
def baroTick (ok : Bool) (p : ℚ) : BaroInput :=
  { now := 0, temp := 15, tempErr := false, press := p, pressErr := !ok }

/-- A measurement with every field zero or false. -/
def Measurement.zero : Measurement :=
  { T := 0, A1 := 0, A2 := 0, A3 := 0, B1 := 0, B2 := 0, B3 := 0, M1 := 0, M2 := 0, M3 := 0,
    SValid := false, MValid := false, TW := 0, WValid := false, W1 := 0, W2 := 0, W3 := 0 }

/-- Locals of the attitude loop on entry, for the default orientation. -/
def AttLocals.sample : AttLocals :=
  { m := Measurement.zero
    ff := ⟨⟨-1, 0, 0⟩, ⟨0, 1, 0⟩, ⟨0, 0, -1⟩⟩
    failnum := 0
    listener := false }

/-- A cycle without a cage request at time `now`, whose IMU read succeeds
(`ok = true`) or fails. -/
def cycleTick (ok : Bool) (now : Int) : CycleInput :=
  { cage := false, calibrateOk := true, now := now, b1 := 0, b2 := 0, b3 := 0, a1 := 0, a2 := 0,
    a3 := 1, m1 := 0, m2 := 0, m3 := 0, mpuError := !ok, magError := false, fusionValid := true,
    roll := 0, pitch := 0, heading := 0, magHeading := 0, slipSkid := 0, rateOfTurn := 0,
    gLoad := 1, sendOk := true, usage := 0, loggerOpened := false }

/-- The number of IMU read errors at the end of a sequence of cycles with no
successful read after them. -/
def trailingErrors (is : List CycleInput) : Nat :=
  (is.reverse.takeWhile fun i => i.mpuError).length

/-- The number of pressure read errors at the end of a sequence of ticks with no
successful read after them. -/
def trailingPressureErrors (is : List BaroInput) : Nat :=
  (is.reverse.takeWhile fun i => i.pressErr).length

/-- The barometric loop after its first `n` ticks, tick `k` being `inp k`. -/
def baroAfter (x : Ext) (w : World) (inp : Nat → BaroInput) (n : Nat) :
    World × BaroLocals × LoopStatus :=
  tempAndPressureSender x w ((List.range n).map inp)

/-- The smoothed vertical speed after the first `n` ticks. -/
def rateAfter (x : Ext) (w : World) (inp : Nat → BaroInput) (n : Nat) : ℚ :=
  (baroAfter x w inp n).1.mySituation.BaroVerticalSpeed

/-- The altitude ramp `a_n = a_0 + n * r * (dt / 60)` of rate `r` per minute. -/
def ramp (a0 r : ℚ) (n : Nat) : ℚ := a0 + n * r * (dt / 60)

/-- Settings on which `makeSensorRotationMatrix` returns a matrix.  The attitude
loop is only entered after the call at line 184 has returned one. -/
def buildsMatrix (g : Settings) : Prop := (makeSensorRotationMatrix g).2.2.isSome = true

/-- A cycle that receives a cage request whose calibration succeeds (`ok = true`)
or returns an error. -/
def cageRequest (ok : Bool) : CycleInput :=
  { cycleTick true 0 with cage := true, calibrateOk := ok }

/-- The step from `w` to `v` leaves the settings and the connection flags alone
and neither closes the IMU nor clears its flag. -/
def keepsIMU (w v : World) : Prop :=
  v.globalSettings = w.globalSettings ∧ v.globalStatus = w.globalStatus ∧
  occurrences Event.closeIMU v.trace = occurrences Event.closeIMU w.trace ∧
  occurrences Event.clearIMUConnected v.trace = occurrences Event.clearIMUConnected w.trace

/-! ## The orientation matrix -/

theorem selectorIndex_valid (s : Int) (h : validSelector s) :
    Vec3.zero.set (selectorIndex s) (selectorValue s) = some (signedUnit s) := by
  rcases h with h | h | h | h | h | h <;> subst h <;>
    simp [selectorIndex, wrapInt64, Vec3.set, Vec3.zero, selectorValue, signedUnit]

theorem buildMatrix_valid (f u : Int) (hf : validSelector f) (hu : validSelector u) :
    buildMatrix (f, u) = some ⟨signedUnit f, leftRow (signedUnit f) (signedUnit u), signedUnit u⟩ := by
  simp [buildMatrix, Mat3.zero, selectorIndex_valid, hf, hu]

theorem signedUnit_dot_self (s : Int) (h : validSelector s) : (signedUnit s).dot (signedUnit s) = 1 := by
  rcases h with h | h | h | h | h | h <;> subst h <;> simp [signedUnit, Vec3.dot]

theorem signedUnit_dot_other (s t : Int) (hs : validSelector s) (ht : validSelector t)
    (hne : s.natAbs ≠ t.natAbs) : (signedUnit s).dot (signedUnit t) = 0 := by
  rcases hs with h | h | h | h | h | h <;> rcases ht with h' | h' | h' | h' | h' | h' <;>
    subst h <;> subst h' <;> first | (exfalso; exact hne rfl) | simp [signedUnit, Vec3.dot]

theorem frame_orthonormal (a c : Vec3) (ha : a.dot a = 1) (hc : c.dot c = 1) (hac : a.dot c = 0) :
    (Mat3.mk a (leftRow a c) c).toMatrix * (Mat3.mk a (leftRow a c) c).toMatrix.transpose = 1 := by
  obtain ⟨a1, a2, a3⟩ := a
  obtain ⟨c1, c2, c3⟩ := c
  simp only [Vec3.dot] at ha hc hac
  ext i j
  fin_cases i <;> fin_cases j <;>
    simp [Mat3.toMatrix, Mat3.row, Vec3.get, leftRow, Matrix.mul_apply, Matrix.transpose_apply,
      Fin.sum_univ_three] <;>
    first
      | linear_combination ha
      | linear_combination hc
      | linear_combination hac
      | ring1
      | linear_combination (a1 * a1 + a2 * a2 + a3 * a3) * hc + ha - (a1 * c1 + a2 * c2 + a3 * c3) * hac

theorem frame_det (a c : Vec3) (ha : a.dot a = 1) (hc : c.dot c = 1) (hac : a.dot c = 0) :
    (Mat3.mk a (leftRow a c) c).toMatrix.det = 1 := by
  obtain ⟨a1, a2, a3⟩ := a
  obtain ⟨c1, c2, c3⟩ := c
  simp only [Vec3.dot] at ha hc hac
  simp [Mat3.toMatrix, Mat3.row, Vec3.get, leftRow, Matrix.det_fin_three]
  linear_combination (a1 * a1 + a2 * a2 + a3 * a3) * hc + ha - (a1 * c1 + a2 * c2 + a3 * c3) * hac

/-- C1: for every selector pair `(forward, up)` of values in `{±1, ±2, ±3}` on
different axes, `makeSensorRotationMatrix` returns a matrix `R` with
`R * Rᵀ = 1` and `det R = 1`, whose row 0 is the signed unit vector of `forward`,
whose row 2 is the signed unit vector of `up`, and whose row 1 is the cross
product `up × forward`; the settings are left as they were and nothing is saved. -/
theorem C1_rotation_orthonormal (g : Settings) (forward up : Int) (hf : validSelector forward) (hu : validSelector up)
    (hne : forward.natAbs ≠ up.natAbs) (hg : g.IMUMapping = (forward, up)) :
    ∃ R, makeSensorRotationMatrix g = (g, [], some R) ∧
      R.toMatrix * R.toMatrix.transpose = 1 ∧ R.toMatrix.det = 1 ∧
      R.r0 = signedUnit forward ∧ R.r2 = signedUnit up ∧
      R.r1 = (signedUnit up).cross (signedUnit forward) := by
  have hf0 : forward ≠ 0 := by rcases hf with h | h | h | h | h | h <;> subst h <;> decide
  refine ⟨⟨signedUnit forward, leftRow (signedUnit forward) (signedUnit up), signedUnit up⟩, ?_, ?_, ?_, rfl, rfl, ?_⟩
  · simp [makeSensorRotationMatrix, defaultMapping, hg, hf0, buildMatrix_valid, hf, hu]
  · exact frame_orthonormal _ _ (signedUnit_dot_self _ hf) (signedUnit_dot_self _ hu)
      (signedUnit_dot_other _ _ hf hu hne)
  · exact frame_det _ _ (signedUnit_dot_self _ hf) (signedUnit_dot_self _ hu)
      (signedUnit_dot_other _ _ hf hu hne)
  · simp [leftRow, Vec3.cross]

/-- C1 at the selectors `(2, -3)`. -/
theorem C1_rotation_orthonormal_witness :
    ∃ R, makeSensorRotationMatrix (settingsWith 2 (-3)) = (settingsWith 2 (-3), [], some R) ∧
      R.toMatrix * R.toMatrix.transpose = 1 ∧ R.toMatrix.det = 1 ∧
      R.r0 = signedUnit 2 ∧ R.r2 = signedUnit (-3) ∧
      R.r1 = (signedUnit (-3)).cross (signedUnit 2) :=
  C1_rotation_orthonormal (settingsWith 2 (-3)) 2 (-3) (by simp [validSelector])
    (by simp [validSelector]) (by decide) rfl

theorem makeSensorRotationMatrix_default (g : Settings) (h : g.IMUMapping.1 = 0) :
    makeSensorRotationMatrix g =
      ({ g with IMUMapping := (-1, -3) }, [Event.saveSettings],
        some ⟨⟨-1, 0, 0⟩, ⟨0, 1, 0⟩, ⟨0, 0, -1⟩⟩) := by
  simp [makeSensorRotationMatrix, defaultMapping, h, buildMatrix, Mat3.zero, selectorIndex,
    wrapInt64, Vec3.set, Vec3.zero, selectorValue, leftRow]

theorem makeSensorRotationMatrix_fixed (g : Settings) (h : g.IMUMapping = (-1, -3)) :
    makeSensorRotationMatrix g = (g, [], some ⟨⟨-1, 0, 0⟩, ⟨0, 1, 0⟩, ⟨0, 0, -1⟩⟩) := by
  simp [makeSensorRotationMatrix, defaultMapping, h, buildMatrix, Mat3.zero, selectorIndex,
    wrapInt64, Vec3.set, Vec3.zero, selectorValue, leftRow]

theorem settingsAfterCalls_fixed (n : Nat) (g : Settings) (h : g.IMUMapping = (-1, -3)) :
    settingsAfterCalls n g = g := by
  induction n with
  | zero => rfl
  | succ k ih => simp [settingsAfterCalls, makeSensorRotationMatrix_fixed g h, ih]

/-- C9: from settings whose selectors are both unset, the first call of
`makeSensorRotationMatrix` stores the default selectors `(-1, -3)` and saves the
settings exactly once; every later call, on the settings the calls before it
left, finds those selectors, leaves the settings as they are, saves nothing and
returns the same matrix as the first call. -/
theorem C9_default_roundtrip (g : Settings) (h : g.IMUMapping = (0, 0)) :
    ∃ R, makeSensorRotationMatrix g =
        ({ g with IMUMapping := (-1, -3) }, [Event.saveSettings], some R) ∧
      ∀ n, 1 ≤ n →
        (settingsAfterCalls n g).IMUMapping = (-1, -3) ∧
        makeSensorRotationMatrix (settingsAfterCalls n g) =
          (settingsAfterCalls n g, [], some R) ∧
        settingsAfterCalls n g = { g with IMUMapping := (-1, -3) } := by
  have h0 : g.IMUMapping.1 = 0 := by rw [h]
  refine ⟨_, makeSensorRotationMatrix_default g h0, ?_⟩
  intro n hn
  obtain ⟨k, rfl⟩ : ∃ k, n = k + 1 := ⟨n - 1, by omega⟩
  have hk : settingsAfterCalls (k + 1) g = { g with IMUMapping := (-1, -3) } := by
    simp only [settingsAfterCalls, makeSensorRotationMatrix_default g h0]
    exact settingsAfterCalls_fixed k _ rfl
  rw [hk]
  exact ⟨rfl, makeSensorRotationMatrix_fixed _ rfl, rfl⟩

/-- C9 at settings with both selectors unset. -/
theorem C9_default_roundtrip_witness :
    ∃ R, makeSensorRotationMatrix (settingsWith 0 0) =
        ({ settingsWith 0 0 with IMUMapping := (-1, -3) }, [Event.saveSettings], some R) ∧
      ∀ n, 1 ≤ n →
        (settingsAfterCalls n (settingsWith 0 0)).IMUMapping = (-1, -3) ∧
        makeSensorRotationMatrix (settingsAfterCalls n (settingsWith 0 0)) =
          (settingsAfterCalls n (settingsWith 0 0), [], some R) ∧
        settingsAfterCalls n (settingsWith 0 0) =
          { settingsWith 0 0 with IMUMapping := (-1, -3) } :=
  C9_default_roundtrip (settingsWith 0 0) rfl

/-- C10: for selectors `(forward, up)` with both values in `[-3, 3]`,
`makeSensorRotationMatrix` returns a matrix (no store is out of range) exactly
when `forward = 0` or `up ≠ 0`.  With `forward = 0` the selectors become
`(-1, -3)` whatever `up` was; with both non-zero every column index is in
`0..2`; with `forward ≠ 0` and `up = 0` the store into row 0 succeeds and the
store into row 2 addresses column `-1` and fails. -/
theorem C10_index_safety (g : Settings) (forward up : Int) (hg : g.IMUMapping = (forward, up))
    (hf : -3 ≤ forward ∧ forward ≤ 3) (hu : -3 ≤ up ∧ up ≤ 3) :
    ((makeSensorRotationMatrix g).2.2.isSome = true ↔ (forward = 0 ∨ up ≠ 0)) ∧
    (forward = 0 → (makeSensorRotationMatrix g).1.IMUMapping = (-1, -3)) ∧
    (forward ≠ 0 → up ≠ 0 →
      (0 ≤ selectorIndex forward ∧ selectorIndex forward ≤ 2) ∧
      (0 ≤ selectorIndex up ∧ selectorIndex up ≤ 2)) ∧
    (forward ≠ 0 → up = 0 →
      (makeSensorRotationMatrix g).1 = g ∧
      (Vec3.zero.set (selectorIndex forward) (selectorValue forward)).isSome = true ∧
      selectorIndex up = -1 ∧
      Vec3.zero.set (selectorIndex up) (selectorValue up) = none ∧
      (makeSensorRotationMatrix g).2.2 = none) := by
  obtain ⟨hf1, hf2⟩ := hf
  obtain ⟨hu1, hu2⟩ := hu
  obtain ⟨a, b, c, d⟩ := g
  simp only at hg
  subst hg
  interval_cases forward <;> interval_cases up <;>
    simp [makeSensorRotationMatrix, defaultMapping, buildMatrix, Mat3.zero, selectorIndex,
      wrapInt64, Vec3.set, Vec3.zero, selectorValue]

/-- C10 at the selectors `(2, 0)`, where the store into row 2 fails. -/
theorem C10_index_safety_witness :
    ((makeSensorRotationMatrix (settingsWith 2 0)).2.2.isSome = true ↔ ((2 : Int) = 0 ∨ (0 : Int) ≠ 0)) ∧
    ((2 : Int) = 0 → (makeSensorRotationMatrix (settingsWith 2 0)).1.IMUMapping = (-1, -3)) ∧
    ((2 : Int) ≠ 0 → (0 : Int) ≠ 0 →
      (0 ≤ selectorIndex 2 ∧ selectorIndex 2 ≤ 2) ∧
      (0 ≤ selectorIndex 0 ∧ selectorIndex 0 ≤ 2)) ∧
    ((2 : Int) ≠ 0 → (0 : Int) = 0 →
      (makeSensorRotationMatrix (settingsWith 2 0)).1 = settingsWith 2 0 ∧
      (Vec3.zero.set (selectorIndex 2) (selectorValue 2)).isSome = true ∧
      selectorIndex 0 = -1 ∧
      Vec3.zero.set (selectorIndex 0) (selectorValue 0) = none ∧
      (makeSensorRotationMatrix (settingsWith 2 0)).2.2 = none) :=
  C10_index_safety (settingsWith 2 0) 2 0 rfl (by decide) (by decide)

/-! ## The barometric loop -/

theorem baroBody_failure_below (x : Ext) (w : World) (l : BaroLocals) (i : BaroInput)
    (hi : i.pressErr = true) (hn : l.failnum < 5) :
    (baroBody x w l i).2.2 = false ∧
    (baroBody x w l i).2.1.failnum = l.failnum + 1 ∧
    baroCondition (baroBody x w l i).1 = baroCondition w ∧
    occurrences Event.closePressureReader (baroBody x w l i).1.trace =
      occurrences Event.closePressureReader w.trace ∧
    occurrences Event.clearBMPConnected (baroBody x w l i).1.trace =
      occurrences Event.clearBMPConnected w.trace ∧
    occurrences Event.timerTick (baroBody x w l i).1.trace =
      occurrences Event.timerTick w.trace + 1 := by
  have h1 : incUint8 l.failnum = l.failnum + 1 := by unfold incUint8; omega
  have h2 : ¬ (l.failnum + 1 > numRetries) := by unfold numRetries; omega
  cases ht : i.tempErr <;>
    simp [baroBody, hi, ht, h1, h2, baroUpdate, World.emit, baroCondition, occurrences]

theorem baroBody_failure_at (x : Ext) (w : World) (l : BaroLocals) (i : BaroInput)
    (hi : i.pressErr = true) (hn : l.failnum = 5) :
    (baroBody x w l i).2.2 = true ∧
    (baroBody x w l i).2.1.failnum = 6 ∧
    (baroBody x w l i).1.globalStatus.BMPConnected = false ∧
    occurrences Event.closePressureReader (baroBody x w l i).1.trace =
      occurrences Event.closePressureReader w.trace + 1 ∧
    occurrences Event.clearBMPConnected (baroBody x w l i).1.trace =
      occurrences Event.clearBMPConnected w.trace + 1 ∧
    occurrences Event.timerTick (baroBody x w l i).1.trace =
      occurrences Event.timerTick w.trace + 1 := by
  have h1 : incUint8 l.failnum = 6 := by unfold incUint8; omega
  cases ht : i.tempErr <;>
    simp [baroBody, hi, ht, h1, numRetries, World.emit, occurrences]

theorem baroBody_success (x : Ext) (w : World) (l : BaroLocals) (i : BaroInput)
    (hi : i.pressErr = false) :
    (baroBody x w l i).2.2 = false ∧
    (baroBody x w l i).2.1.failnum = l.failnum ∧
    baroCondition (baroBody x w l i).1 = baroCondition w ∧
    occurrences Event.closePressureReader (baroBody x w l i).1.trace =
      occurrences Event.closePressureReader w.trace ∧
    occurrences Event.clearBMPConnected (baroBody x w l i).1.trace =
      occurrences Event.clearBMPConnected w.trace := by
  cases ht : i.tempErr <;>
    simp [baroBody, hi, ht, baroUpdate, World.emit, baroCondition, occurrences]

/-- A run of failing pressure reads that keeps the counter at or below the
threshold leaves the loop waiting, with nothing closed. -/
theorem baroLoop_failures (x : Ext) (fails : List BaroInput) :
    ∀ (w : World) (l : BaroLocals), baroCondition w = true →
      (∀ i ∈ fails, i.pressErr = true) → l.failnum + fails.length ≤ 5 →
      (baroLoop x w l fails).2.2 = LoopStatus.waiting ∧
      baroCondition (baroLoop x w l fails).1 = true ∧
      (baroLoop x w l fails).2.1.failnum = l.failnum + fails.length ∧
      occurrences Event.closePressureReader (baroLoop x w l fails).1.trace =
        occurrences Event.closePressureReader w.trace ∧
      occurrences Event.clearBMPConnected (baroLoop x w l fails).1.trace =
        occurrences Event.clearBMPConnected w.trace ∧
      occurrences Event.timerTick (baroLoop x w l fails).1.trace =
        occurrences Event.timerTick w.trace + fails.length := by
  induction fails with
  | nil => intro w l hc _ _; simp [baroLoop, hc]
  | cons i rest ih =>
    intro w l hc hall hlen
    simp only [List.length_cons] at hlen
    have hi : i.pressErr = true := hall i (List.mem_cons_self _ _)
    obtain ⟨b1, b2, b3, b4, b5, b6⟩ := baroBody_failure_below x w l i hi (by omega)
    have hrest := ih (baroBody x w l i).1 (baroBody x w l i).2.1 (by rw [b3, hc])
      (fun j hj => hall j (List.mem_cons_of_mem _ hj)) (by rw [b2]; omega)
    simp only [baroLoop, hc, b1, if_true, Bool.false_eq_true, if_false, List.length_cons]
    rw [b2, b4, b5, b6] at hrest
    refine ⟨hrest.1, hrest.2.1, by rw [hrest.2.2.1]; omega, hrest.2.2.2.1, hrest.2.2.2.2.1, ?_⟩
    rw [hrest.2.2.2.2.2]; omega

/-- Ticks offered after the loop has exited are not executed. -/
theorem baroLoop_append_exited (x : Ext) (p : List BaroInput) :
    ∀ (w : World) (l : BaroLocals) (q : List BaroInput),
      (baroLoop x w l p).2.2 = LoopStatus.exited →
      baroLoop x w l (p ++ q) = baroLoop x w l p := by
  induction p with
  | nil =>
    intro w l q h
    cases hc : baroCondition w
    · cases q <;> simp [baroLoop, hc]
    · simp [baroLoop, hc] at h
  | cons i rest ih =>
    intro w l q h
    cases hc : baroCondition w
    · simp [baroLoop, hc]
    · cases hb : (baroBody x w l i).2.2
      · simp only [baroLoop, hc, hb, if_true, Bool.false_eq_true, if_false] at h
        simp only [List.cons_append, baroLoop, hc, hb, if_true, Bool.false_eq_true, if_false]
        exact ih _ _ q h
      · simp [baroLoop, hc, hb]

/-- While the loop is waiting, later ticks continue from the state reached. -/
theorem baroLoop_append_waiting (x : Ext) (p : List BaroInput) :
    ∀ (w : World) (l : BaroLocals) (q : List BaroInput),
      (baroLoop x w l p).2.2 = LoopStatus.waiting →
      baroLoop x w l (p ++ q) = baroLoop x (baroLoop x w l p).1 (baroLoop x w l p).2.1 q := by
  induction p with
  | nil =>
    intro w l q h
    simp [baroLoop]
  | cons i rest ih =>
    intro w l q h
    cases hc : baroCondition w
    · simp [baroLoop, hc] at h
    · cases hb : (baroBody x w l i).2.2
      · simp only [baroLoop, hc, hb, if_true, Bool.false_eq_true, if_false] at h
        simp only [List.cons_append, baroLoop, hc, hb, if_true, Bool.false_eq_true, if_false]
        exact ih _ _ q h
      · simp [baroLoop, hc, hb] at h

/-- C4: a loop instance started with the sensor enabled and connected whose first
six pressure reads all fail closes the driver once and clears the connected
flag once, at the sixth tick: after any `k ≤ 5` of the failures the loop is still
waiting, connected and has closed nothing, and after the sixth the loop has
exited, whatever ticks are offered afterwards (six ticks were executed). -/
theorem C4_six_failures_disconnect_once (x : Ext) (w : World) (fails rest : List BaroInput)
    (hc : baroCondition w = true) (hlen : fails.length = 6)
    (hall : ∀ i ∈ fails, i.pressErr = true) :
    (tempAndPressureSender x w (fails ++ rest)).2.2 = LoopStatus.exited ∧
    (tempAndPressureSender x w (fails ++ rest)).1.globalStatus.BMPConnected = false ∧
    occurrences Event.closePressureReader (tempAndPressureSender x w (fails ++ rest)).1.trace =
      occurrences Event.closePressureReader w.trace + 1 ∧
    occurrences Event.clearBMPConnected (tempAndPressureSender x w (fails ++ rest)).1.trace =
      occurrences Event.clearBMPConnected w.trace + 1 ∧
    occurrences Event.timerTick (tempAndPressureSender x w (fails ++ rest)).1.trace =
      occurrences Event.timerTick w.trace + 6 ∧
    (∀ k, k ≤ 5 →
      (tempAndPressureSender x w (fails.take k)).2.2 = LoopStatus.waiting ∧
      (tempAndPressureSender x w (fails.take k)).1.globalStatus.BMPConnected = true ∧
      occurrences Event.closePressureReader (tempAndPressureSender x w (fails.take k)).1.trace =
        occurrences Event.closePressureReader w.trace ∧
      occurrences Event.clearBMPConnected (tempAndPressureSender x w (fails.take k)).1.trace =
        occurrences Event.clearBMPConnected w.trace) := by
  have hpre : ∀ k, k ≤ 5 →
      (baroLoop x w BaroLocals.init (fails.take k)).2.2 = LoopStatus.waiting ∧
      baroCondition (baroLoop x w BaroLocals.init (fails.take k)).1 = true ∧
      (baroLoop x w BaroLocals.init (fails.take k)).2.1.failnum = k ∧
      occurrences Event.closePressureReader (baroLoop x w BaroLocals.init (fails.take k)).1.trace =
        occurrences Event.closePressureReader w.trace ∧
      occurrences Event.clearBMPConnected (baroLoop x w BaroLocals.init (fails.take k)).1.trace =
        occurrences Event.clearBMPConnected w.trace ∧
      occurrences Event.timerTick (baroLoop x w BaroLocals.init (fails.take k)).1.trace =
        occurrences Event.timerTick w.trace + k := by
    intro k hk
    have hl : (fails.take k).length = k := by simp [List.length_take, hlen]; omega
    have h := baroLoop_failures x (fails.take k) w BaroLocals.init hc
      (fun i hi => hall i (List.mem_of_mem_take hi)) (by simp [BaroLocals.init, hl, hk])
    simpa [hl, BaroLocals.init] using h
  obtain ⟨last, hlast⟩ : ∃ last, fails.drop 5 = [last] :=
    List.length_eq_one.mp (by simp [List.length_drop, hlen])
  have hsplit : fails ++ rest = fails.take 5 ++ (last :: rest) := by
    conv_lhs => rw [← List.take_append_drop 5 fails, hlast]
    simp
  have hlastErr : last.pressErr = true :=
    hall last (List.mem_of_mem_drop (by rw [hlast]; exact List.mem_singleton_self _))
  obtain ⟨p1, p2, p3, p4, p5, p6⟩ := hpre 5 (le_refl 5)
  obtain ⟨b1, _, b3, b4, b5, b6⟩ := baroBody_failure_at x
    (baroLoop x w BaroLocals.init (fails.take 5)).1
    (baroLoop x w BaroLocals.init (fails.take 5)).2.1 last hlastErr p3
  have hrun : tempAndPressureSender x w (fails ++ rest) =
      ((baroBody x (baroLoop x w BaroLocals.init (fails.take 5)).1
          (baroLoop x w BaroLocals.init (fails.take 5)).2.1 last).1,
        (baroBody x (baroLoop x w BaroLocals.init (fails.take 5)).1
          (baroLoop x w BaroLocals.init (fails.take 5)).2.1 last).2.1, LoopStatus.exited) := by
    unfold tempAndPressureSender
    rw [hsplit, baroLoop_append_waiting x _ _ _ _ p1]
    simp [baroLoop, p2, b1]
  refine ⟨by rw [hrun], by rw [hrun]; exact b3, by rw [hrun, b4, p4], by rw [hrun, b5, p5],
    by rw [hrun, b6, p6], ?_⟩
  intro k hk
  obtain ⟨q1, q2, _, q4, q5, _⟩ := hpre k hk
  refine ⟨q1, ?_, q4, q5⟩
  simp [baroCondition] at q2
  exact q2.2

/-- C4 at six failing ticks followed by a tick that would succeed. -/
theorem C4_six_failures_disconnect_once_witness :
    (tempAndPressureSender Ext.sample World.sample
      (List.replicate 6 (baroTick false 0) ++ [baroTick true 0])).2.2 = LoopStatus.exited ∧
    (tempAndPressureSender Ext.sample World.sample
      (List.replicate 6 (baroTick false 0) ++ [baroTick true 0])).1.globalStatus.BMPConnected
        = false ∧
    occurrences Event.closePressureReader (tempAndPressureSender Ext.sample World.sample
      (List.replicate 6 (baroTick false 0) ++ [baroTick true 0])).1.trace =
      occurrences Event.closePressureReader World.sample.trace + 1 ∧
    occurrences Event.clearBMPConnected (tempAndPressureSender Ext.sample World.sample
      (List.replicate 6 (baroTick false 0) ++ [baroTick true 0])).1.trace =
      occurrences Event.clearBMPConnected World.sample.trace + 1 ∧
    occurrences Event.timerTick (tempAndPressureSender Ext.sample World.sample
      (List.replicate 6 (baroTick false 0) ++ [baroTick true 0])).1.trace =
      occurrences Event.timerTick World.sample.trace + 6 ∧
    (∀ k, k ≤ 5 →
      (tempAndPressureSender Ext.sample World.sample
        ((List.replicate 6 (baroTick false 0)).take k)).2.2 = LoopStatus.waiting ∧
      (tempAndPressureSender Ext.sample World.sample
        ((List.replicate 6 (baroTick false 0)).take k)).1.globalStatus.BMPConnected = true ∧
      occurrences Event.closePressureReader (tempAndPressureSender Ext.sample World.sample
        ((List.replicate 6 (baroTick false 0)).take k)).1.trace =
        occurrences Event.closePressureReader World.sample.trace ∧
      occurrences Event.clearBMPConnected (tempAndPressureSender Ext.sample World.sample
        ((List.replicate 6 (baroTick false 0)).take k)).1.trace =
        occurrences Event.clearBMPConnected World.sample.trace) :=
  C4_six_failures_disconnect_once Ext.sample World.sample (List.replicate 6 (baroTick false 0))
    [baroTick true 0] rfl rfl (by
      intro i hi
      rw [List.eq_of_mem_replicate hi]
      rfl)

/-- C3 (the code at a failing input): on eleven ticks whose pressure reads
alternate failure and success, starting and ending with a failure, no tick ends
a run of more than one failure, and the counter is still `1` after the first
success; yet at the eleventh tick the counter reaches `6`, the driver is closed,
the connected flag is cleared and the loop exits. -/
theorem C3_failures_accumulate_across_successes :
    (∀ k : Fin 12, trailingPressureErrors
      (([false, true, false, true, false, true, false, true, false, true, false].map
        fun ok => baroTick ok 1000).take k) ≤ 1) ∧
    (tempAndPressureSender Ext.sample World.sample
      ([false, true].map fun ok => baroTick ok 1000)).2.1.failnum = 1 ∧
    (tempAndPressureSender Ext.sample World.sample
      ([false, true, false, true, false, true, false, true, false, true].map
        fun ok => baroTick ok 1000)).2.2 = LoopStatus.waiting ∧
    (tempAndPressureSender Ext.sample World.sample
      ([false, true, false, true, false, true, false, true, false, true, false].map
        fun ok => baroTick ok 1000)).2.2 = LoopStatus.exited ∧
    (tempAndPressureSender Ext.sample World.sample
      ([false, true, false, true, false, true, false, true, false, true, false].map
        fun ok => baroTick ok 1000)).2.1.failnum = 6 ∧
    (tempAndPressureSender Ext.sample World.sample
      ([false, true, false, true, false, true, false, true, false, true, false].map
        fun ok => baroTick ok 1000)).1.globalStatus.BMPConnected = false ∧
    occurrences Event.closePressureReader (tempAndPressureSender Ext.sample World.sample
      ([false, true, false, true, false, true, false, true, false, true, false].map
        fun ok => baroTick ok 1000)).1.trace = 1 := by
  refine ⟨by decide, by decide, by decide, by decide, by decide, by decide, by decide⟩

/-! ## The vertical-speed estimator -/

theorem u_eq : u = 50 / 51 := by norm_num [u, dt]

theorem baroBody_success_rate (x : Ext) (w : World) (l : BaroLocals) (i : BaroInput)
    (hi : i.pressErr = false) :
    (baroBody x w l i).1.mySituation.BaroVerticalSpeed =
      u * w.mySituation.BaroVerticalSpeed +
        (1 - u) * (x.CalcAltitude i.press -
          (if l.altLast < -2000 then x.CalcAltitude i.press else l.altLast)) / (dt / 60) ∧
    (baroBody x w l i).2.1.altLast = x.CalcAltitude i.press := by
  cases ht : i.tempErr <;> simp [baroBody, hi, ht, baroUpdate, World.emit]

theorem baroAfter_succ (x : Ext) (w : World) (inp : Nat → BaroInput) (n : Nat)
    (hok : (inp n).pressErr = false)
    (hw : (baroAfter x w inp n).2.2 = LoopStatus.waiting)
    (hc : baroCondition (baroAfter x w inp n).1 = true) :
    baroAfter x w inp (n + 1) =
      ((baroBody x (baroAfter x w inp n).1 (baroAfter x w inp n).2.1 (inp n)).1,
        (baroBody x (baroAfter x w inp n).1 (baroAfter x w inp n).2.1 (inp n)).2.1,
        LoopStatus.waiting) := by
  obtain ⟨b1, _, b3, _, _⟩ :=
    baroBody_success x (baroAfter x w inp n).1 (baroAfter x w inp n).2.1 (inp n) hok
  unfold baroAfter tempAndPressureSender at *
  rw [List.range_succ, List.map_append, baroLoop_append_waiting x _ _ _ _ hw]
  simp [baroLoop, hc, b1, b3]

/-- On a ramp of `N + 1` samples with every pressure read succeeding and every
altitude at least `-2000`, after each of the ticks the loop keeps waiting, the
previous altitude follows the ramp, and from the second tick on the rate moves
toward the rate of the ramp by the factor `u`. -/
theorem ramp_invariant (x : Ext) (w : World) (inp : Nat → BaroInput) (a0 r : ℚ) (N : Nat)
    (hc : baroCondition w = true)
    (hok : ∀ n, n ≤ N → (inp n).pressErr = false)
    (halt : ∀ n, n ≤ N → x.CalcAltitude (inp n).press = ramp a0 r n)
    (hlo : ∀ n, n ≤ N → -2000 ≤ ramp a0 r n) (n : Nat) (hn : n ≤ N) :
    (baroAfter x w inp (n + 1)).2.2 = LoopStatus.waiting ∧
    baroCondition (baroAfter x w inp (n + 1)).1 = true ∧
    (baroAfter x w inp (n + 1)).2.1.altLast = ramp a0 r n ∧
    rateAfter x w inp (n + 1) - r = u ^ n * (u * w.mySituation.BaroVerticalSpeed - r) := by
  have h0w : (baroAfter x w inp 0).2.2 = LoopStatus.waiting := by
    simp [baroAfter, tempAndPressureSender, baroLoop, hc]
  have h0c : baroCondition (baroAfter x w inp 0).1 = true := by
    simpa [baroAfter, tempAndPressureSender, baroLoop] using hc
  induction n with
  | zero =>
    have hok0 := hok 0 hn
    have hs := baroAfter_succ x w inp 0 hok0 h0w h0c
    obtain ⟨_, _, b3, _, _⟩ :=
      baroBody_success x (baroAfter x w inp 0).1 (baroAfter x w inp 0).2.1 (inp 0) hok0
    obtain ⟨r1, r2⟩ :=
      baroBody_success_rate x (baroAfter x w inp 0).1 (baroAfter x w inp 0).2.1 (inp 0) hok0
    refine ⟨by rw [hs], by rw [hs]; simpa [b3] using h0c,
      by rw [hs]; simpa [halt 0 hn] using r2, ?_⟩
    unfold rateAfter
    rw [hs]
    simp only [r1]
    have hinit : (baroAfter x w inp 0).2.1.altLast < -2000 := by
      norm_num [baroAfter, tempAndPressureSender, baroLoop, BaroLocals.init]
    have hw0 : (baroAfter x w inp 0).1 = w := by
      simp [baroAfter, tempAndPressureSender, baroLoop]
    simp [hinit, hw0]
  | succ k ih =>
    have hk : k ≤ N := by omega
    obtain ⟨i1, i2, i3, i4⟩ := ih hk
    have hok1 := hok (k + 1) hn
    have hs := baroAfter_succ x w inp (k + 1) hok1 i1 i2
    obtain ⟨_, _, b3, _, _⟩ :=
      baroBody_success x (baroAfter x w inp (k + 1)).1 (baroAfter x w inp (k + 1)).2.1
        (inp (k + 1)) hok1
    obtain ⟨r1, r2⟩ :=
      baroBody_success_rate x (baroAfter x w inp (k + 1)).1 (baroAfter x w inp (k + 1)).2.1
        (inp (k + 1)) hok1
    refine ⟨by rw [hs], by rw [hs]; simpa [b3] using i2,
      by rw [hs]; simpa [halt (k + 1) hn] using r2, ?_⟩
    have hge : ¬ (ramp a0 r k < -2000) := not_lt.mpr (hlo k hk)
    unfold rateAfter at i4 ⊢
    rw [hs]
    simp only [r1, i3, hge, if_false, halt (k + 1) hn]
    have hstep : ramp a0 r (k + 1) - ramp a0 r k = r * (dt / 60) := by
      simp only [ramp]; push_cast; ring
    have hd : dt / 60 ≠ 0 := by norm_num [dt]
    rw [hstep, mul_div_assoc, mul_div_assoc, div_self hd, pow_succ]
    linear_combination u * i4

theorem u_pow_small : u ^ 250 < 1 / 100 := by
  rw [u_eq]; norm_num

theorem u_pos : 0 < u := by rw [u_eq]; norm_num

theorem u_le_one : u ≤ 1 := by rw [u_eq]; norm_num

/-- C8 (amended): over exact rationals with `dt = 1/10` and `u = 50/51`, for every
true rate `r` (climb or descent), every initial smoothed rate and every ramp
`a_n = a_0 + n * r * (dt / 60)`, `n = 0 .. N`, whose altitudes are all at least
`-2000`, with the pressure reads of those ticks succeeding: the first sample
only initialises the previous altitude (`rate' = u * rate`); at every later
tick of the ramp the error `|rate - r|` is exactly `u` times the error of the
tick before, hence never grows; and when the ramp has `250` further ticks, the
error after them is at most `1%` of the error after the first tick, and
strictly below it when that error is not zero. -/
theorem C8_rate_converges (x : Ext) (w : World) (inp : Nat → BaroInput) (a0 r : ℚ) (N : Nat)
    (hc : baroCondition w = true)
    (hok : ∀ n, n ≤ N → (inp n).pressErr = false)
    (halt : ∀ n, n ≤ N → x.CalcAltitude (inp n).press = ramp a0 r n)
    (hlo : ∀ n, n ≤ N → -2000 ≤ ramp a0 r n) :
    dt = 1 / 10 ∧ u = 50 / 51 ∧
    rateAfter x w inp 0 = w.mySituation.BaroVerticalSpeed ∧
    (baroAfter x w inp 1).2.1.altLast = a0 ∧
    rateAfter x w inp 1 = u * w.mySituation.BaroVerticalSpeed ∧
    (∀ n, 1 ≤ n → n ≤ N →
      |rateAfter x w inp (n + 1) - r| = u * |rateAfter x w inp n - r|) ∧
    (∀ n, 1 ≤ n → n ≤ N →
      |rateAfter x w inp (n + 1) - r| ≤ |rateAfter x w inp n - r|) ∧
    (250 ≤ N →
      |rateAfter x w inp 251 - r| ≤ 1 / 100 * |rateAfter x w inp 1 - r| ∧
      (rateAfter x w inp 1 ≠ r →
        |rateAfter x w inp 251 - r| < 1 / 100 * |rateAfter x w inp 1 - r|)) := by
  have inv := ramp_invariant x w inp a0 r N hc hok halt hlo
  have h1 : rateAfter x w inp 1 - r = u * w.mySituation.BaroVerticalSpeed - r := by
    have h := (inv 0 (Nat.zero_le _)).2.2.2
    simpa using h
  have herr : ∀ n, n ≤ N →
      rateAfter x w inp (n + 1) - r = u ^ n * (rateAfter x w inp 1 - r) := by
    intro n hn
    rw [(inv n hn).2.2.2, h1]
  have hstep : ∀ n, 1 ≤ n → n ≤ N →
      |rateAfter x w inp (n + 1) - r| = u * |rateAfter x w inp n - r| := by
    intro n hn hN
    obtain ⟨k, rfl⟩ : ∃ k, n = k + 1 := ⟨n - 1, by omega⟩
    rw [herr (k + 1) hN, herr k (by omega), pow_succ, mul_assoc, abs_mul, abs_mul, abs_mul,
      abs_of_pos u_pos, abs_of_pos (pow_pos u_pos k)]
    ring
  refine ⟨rfl, u_eq, ?_, ?_, ?_, hstep, ?_, ?_⟩
  · simp [rateAfter, baroAfter, tempAndPressureSender, baroLoop]
  · have h := (inv 0 (Nat.zero_le _)).2.2.1
    simpa [ramp] using h
  · linarith
  · intro n hn hN
    rw [hstep n hn hN]
    have := abs_nonneg (rateAfter x w inp n - r)
    nlinarith [u_le_one]
  · intro hN
    have h251 : |rateAfter x w inp 251 - r| = u ^ 250 * |rateAfter x w inp 1 - r| := by
      rw [herr 250 hN, abs_mul, abs_of_pos (pow_pos u_pos 250)]
    refine ⟨?_, ?_⟩
    · rw [h251]
      exact mul_le_mul_of_nonneg_right (le_of_lt u_pow_small) (abs_nonneg _)
    · intro hne
      rw [h251]
      exact mul_lt_mul_of_pos_right u_pow_small (abs_pos.mpr (sub_ne_zero.mpr hne))

/-- C8 at a descent: a ramp of `251` samples from altitude `1000` sinking at
rate `600`, which ends at altitude `750`. -/
theorem C8_rate_converges_witness :
    dt = 1 / 10 ∧ u = 50 / 51 ∧
    rateAfter Ext.sample World.sample (fun n => baroTick true (ramp 1000 (-600) n)) 0 =
      World.sample.mySituation.BaroVerticalSpeed ∧
    (baroAfter Ext.sample World.sample
      (fun n => baroTick true (ramp 1000 (-600) n)) 1).2.1.altLast = 1000 ∧
    rateAfter Ext.sample World.sample (fun n => baroTick true (ramp 1000 (-600) n)) 1 =
      u * World.sample.mySituation.BaroVerticalSpeed ∧
    (∀ n, 1 ≤ n → n ≤ 250 →
      |rateAfter Ext.sample World.sample
          (fun n => baroTick true (ramp 1000 (-600) n)) (n + 1) - -600| =
        u * |rateAfter Ext.sample World.sample
          (fun n => baroTick true (ramp 1000 (-600) n)) n - -600|) ∧
    (∀ n, 1 ≤ n → n ≤ 250 →
      |rateAfter Ext.sample World.sample
          (fun n => baroTick true (ramp 1000 (-600) n)) (n + 1) - -600| ≤
        |rateAfter Ext.sample World.sample
          (fun n => baroTick true (ramp 1000 (-600) n)) n - -600|) ∧
    (250 ≤ 250 →
      |rateAfter Ext.sample World.sample
          (fun n => baroTick true (ramp 1000 (-600) n)) 251 - -600| ≤
        1 / 100 * |rateAfter Ext.sample World.sample
          (fun n => baroTick true (ramp 1000 (-600) n)) 1 - -600| ∧
      (rateAfter Ext.sample World.sample
          (fun n => baroTick true (ramp 1000 (-600) n)) 1 ≠ -600 →
        |rateAfter Ext.sample World.sample
            (fun n => baroTick true (ramp 1000 (-600) n)) 251 - -600| <
          1 / 100 * |rateAfter Ext.sample World.sample
            (fun n => baroTick true (ramp 1000 (-600) n)) 1 - -600|)) :=
  C8_rate_converges Ext.sample World.sample
    (fun n => baroTick true (ramp 1000 (-600) n)) 1000 (-600) 250 rfl
    (fun _ _ => rfl) (fun _ _ => rfl)
    (fun n hn => by
      have h : (n : ℚ) ≤ 250 := by exact_mod_cast hn
      simp only [ramp, dt]
      linarith)

/-- C8 (the claim as stated fails): on the constant ramp at altitude `0` with
true rate `0` and initial smoothed rate `0`, every hypothesis of the claim
holds, the error after the first tick is `0`, and the error after `250` further
ticks is `0` as well, which is not below `1%` of `0`. -/
theorem C8_zero_error_not_strictly_below :
    baroCondition World.sample = true ∧
    (∀ n : Nat, ((fun _ => baroTick true 0) n : BaroInput).pressErr = false) ∧
    (∀ n : Nat, Ext.sample.CalcAltitude ((fun _ => baroTick true 0) n : BaroInput).press =
      ramp 0 0 n) ∧
    (∀ n : Nat, -2000 ≤ ramp 0 0 n) ∧
    ¬ (|rateAfter Ext.sample World.sample (fun _ => baroTick true 0) 251 - 0| <
        1 / 100 * |rateAfter Ext.sample World.sample (fun _ => baroTick true 0) 1 - 0|) := by
  have hok : ∀ n : Nat, ((fun _ => baroTick true 0) n : BaroInput).pressErr = false :=
    fun _ => rfl
  have halt : ∀ n : Nat,
      Ext.sample.CalcAltitude ((fun _ => baroTick true 0) n : BaroInput).press = ramp 0 0 n := by
    intro n; simp [ramp, Ext.sample, baroTick]
  have hlo : ∀ n : Nat, (-2000 : ℚ) ≤ ramp 0 0 n := by
    intro n; simp [ramp]
  refine ⟨rfl, hok, halt, hlo, ?_⟩
  have inv := ramp_invariant Ext.sample World.sample (fun _ => baroTick true 0) 0 0 250 rfl
    (fun n _ => hok n) (fun n _ => halt n) (fun n _ => hlo n)
  have h251 := (inv 250 (le_refl _)).2.2.2
  have h1 := (inv 0 (Nat.zero_le _)).2.2.2
  have hz : World.sample.mySituation.BaroVerticalSpeed = 0 := rfl
  rw [hz] at h251 h1
  simp only [mul_zero, sub_zero] at h251 h1
  rw [sub_zero, sub_zero, h251, h1]
  norm_num

/-! ## The attitude loop -/

theorem timeSub_lt_window (t v : Int) :
    timeSub t v < 3000 * Millisecond ↔ t - v < 3000000000 := by
  unfold timeSub minDuration maxDuration Millisecond
  norm_num
  split_ifs <;> omega

theorem buildsMatrix_stable (g : Settings) (h : buildsMatrix g) :
    buildsMatrix (makeSensorRotationMatrix g).1 ∧
    (makeSensorRotationMatrix g).1.IMU_Sensor_Enabled = g.IMU_Sensor_Enabled ∧
    occurrences Event.closeIMU (makeSensorRotationMatrix g).2.1 = 0 ∧
    occurrences Event.clearIMUConnected (makeSensorRotationMatrix g).2.1 = 0 ∧
    occurrences Event.fusionCompute (makeSensorRotationMatrix g).2.1 = 0 ∧
    occurrences Event.fusionReset (makeSensorRotationMatrix g).2.1 = 0 ∧
    occurrences Event.calibrateIMU (makeSensorRotationMatrix g).2.1 = 0 := by
  by_cases h0 : g.IMUMapping.1 = 0
  · rw [makeSensorRotationMatrix_default g h0]
    refine ⟨?_, rfl, by simp [occurrences], by simp [occurrences], by simp [occurrences],
      by simp [occurrences], by simp [occurrences]⟩
    unfold buildsMatrix
    rw [makeSensorRotationMatrix_fixed _ rfl]
    rfl
  · have hd : defaultMapping g = (g, []) := by simp [defaultMapping, h0]
    have hm : makeSensorRotationMatrix g = (g, [], buildMatrix g.IMUMapping) := by
      simp [makeSensorRotationMatrix, hd]
    rw [hm]
    exact ⟨h, rfl, by simp [occurrences], by simp [occurrences], by simp [occurrences],
      by simp [occurrences], by simp [occurrences]⟩

/-- The `select` step without a request does nothing. -/
theorem cageStep_idle (w : World) (l : AttLocals) (i : CycleInput) (hcage : i.cage = false) :
    cageStep w l i = some (w, l) := by
  simp [cageStep, hcage]

/-- The `select` step on a request whose calibration returns an error. -/
theorem cageStep_calibration_error (w : World) (l : AttLocals) (i : CycleInput)
    (hcage : i.cage = true) (hcal : i.calibrateOk = false) :
    cageStep w l i =
      some ({ w with
          ahrsCalibrating := false
          trace := w.trace ++ [Event.calibrateIMU, Event.logLine, Event.fusionReset] }, l) := by
  simp [cageStep, hcage, hcal, World.emit]

/-- The `select` step on a request whose calibration succeeds, when the matrix
can be rebuilt. -/
theorem cageStep_calibration_ok (w : World) (l : AttLocals) (i : CycleInput) (R : Mat3)
    (hcage : i.cage = true) (hcal : i.calibrateOk = true)
    (hR : (makeSensorRotationMatrix w.globalSettings).2.2 = some R) :
    cageStep w l i =
      some ({ w with
          globalSettings := (makeSensorRotationMatrix w.globalSettings).1
          ahrsCalibrating := false
          trace := w.trace ++ [Event.calibrateIMU, Event.logLine] ++
            (makeSensorRotationMatrix w.globalSettings).2.1 ++ [Event.fusionReset] },
        { l with ff := R }) := by
  simp only [cageStep, hcage, hcal, if_true, World.emit]
  rw [hR]
  simp

/-- The `select` step completes on settings that build a matrix, and touches
neither the situation, the connection flags, the measurement nor the counter. -/
theorem cageStep_frame (w : World) (l : AttLocals) (i : CycleInput)
    (hset : buildsMatrix w.globalSettings) :
    ∃ r, cageStep w l i = some r ∧
      buildsMatrix r.1.globalSettings ∧
      r.1.globalSettings.IMU_Sensor_Enabled = w.globalSettings.IMU_Sensor_Enabled ∧
      r.1.globalStatus = w.globalStatus ∧
      r.1.mySituation = w.mySituation ∧
      r.2.m = l.m ∧ r.2.failnum = l.failnum ∧
      occurrences Event.closeIMU r.1.trace = occurrences Event.closeIMU w.trace ∧
      occurrences Event.clearIMUConnected r.1.trace =
        occurrences Event.clearIMUConnected w.trace ∧
      occurrences Event.fusionCompute r.1.trace = occurrences Event.fusionCompute w.trace := by
  obtain ⟨s1, s2, s3, s4, s5, _, _⟩ := buildsMatrix_stable w.globalSettings hset
  cases hcage : i.cage
  · exact ⟨(w, l), cageStep_idle w l i hcage, hset, rfl, rfl, rfl, rfl, rfl, rfl, rfl, rfl⟩
  · cases hcal : i.calibrateOk
    · refine ⟨_, cageStep_calibration_error w l i hcage hcal, hset, rfl, rfl, rfl, rfl, rfl,
        ?_, ?_, ?_⟩ <;> simp [occurrences]
    · obtain ⟨R, hR⟩ := Option.isSome_iff_exists.mp hset
      refine ⟨_, cageStep_calibration_ok w l i R hcage hcal hR, s1, s2, rfl, rfl, rfl, rfl,
        ?_, ?_, ?_⟩
      · simpa [occurrences] using s3
      · simpa [occurrences] using s4
      · simpa [occurrences] using s5

/-- Whenever the `select` step completes, the situation and the measurement are
as they were. -/
theorem cageStep_keeps (w : World) (l : AttLocals) (i : CycleInput)
    (r : World × AttLocals) (h : cageStep w l i = some r) :
    r.1.mySituation = w.mySituation ∧ r.2.m = l.m := by
  cases hcage : i.cage
  · rw [cageStep_idle w l i hcage, Option.some.injEq] at h
    subst h
    exact ⟨rfl, rfl⟩
  · cases hcal : i.calibrateOk
    · rw [cageStep_calibration_error w l i hcage hcal, Option.some.injEq] at h
      subst h
      exact ⟨rfl, rfl⟩
    · cases hR : (makeSensorRotationMatrix w.globalSettings).2.2 with
      | none =>
        have hn : cageStep w l i = none := by
          simp only [cageStep, hcage, hcal, if_true, World.emit]
          rw [hR]
        rw [hn] at h
        exact absurd h (by simp)
      | some R =>
        rw [cageStep_calibration_ok w l i R hcage hcal hR, Option.some.injEq] at h
        subst h
        exact ⟨rfl, rfl⟩

theorem keepsIMU_publishStep (x : Ext) (w : World) (i : CycleInput) :
    keepsIMU w (publishStep x w i) ∧
    occurrences Event.fusionCompute (publishStep x w i).trace =
      occurrences Event.fusionCompute w.trace := by
  cases h : i.fusionValid <;> simp [publishStep, h, keepsIMU, World.emit, occurrences]

theorem keepsIMU_listenerStep (w : World) (l : AttLocals) (i : CycleInput) :
    keepsIMU w (listenerStep w l i).1 ∧
    occurrences Event.fusionCompute (listenerStep w l i).1.trace =
      occurrences Event.fusionCompute w.trace ∧
    (listenerStep w l i).2.m = l.m ∧ (listenerStep w l i).2.failnum = l.failnum := by
  cases h : l.listener <;> cases h' : i.sendOk <;>
    simp [listenerStep, h, h', keepsIMU, World.emit, occurrences]

theorem keepsIMU_analysisStep (w : World) (i : CycleInput) :
    keepsIMU w (analysisStep w i) ∧
    occurrences Event.fusionCompute (analysisStep w i).trace =
      occurrences Event.fusionCompute w.trace := by
  unfold analysisStep
  cases h1 : (w.globalSettings.AHRSLog && decide (i.usage < 95 / 100))
  · simp [keepsIMU]
  · cases h2 : w.analysisLogger <;> cases h3 : i.loggerOpened <;>
      simp [h2, h3, keepsIMU, World.emit, occurrences]

/-- The cycle after the `select`, when the IMU read fails. -/
theorem sampleStep_failure (x : Ext) (w : World) (l : AttLocals) (i : CycleInput)
    (hi : i.mpuError = true) :
    (sampleStep x w l i).2.failnum = incUint8 l.failnum ∧
    (sampleStep x w l i).1.globalSettings = w.globalSettings ∧
    occurrences Event.fusionCompute (sampleStep x w l i).1.trace =
      occurrences Event.fusionCompute w.trace ∧
    (numRetries < incUint8 l.failnum →
      (sampleStep x w l i).1.globalStatus.IMUConnected = false ∧
      occurrences Event.closeIMU (sampleStep x w l i).1.trace =
        occurrences Event.closeIMU w.trace + 1 ∧
      occurrences Event.clearIMUConnected (sampleStep x w l i).1.trace =
        occurrences Event.clearIMUConnected w.trace + 1) ∧
    (¬ numRetries < incUint8 l.failnum →
      (sampleStep x w l i).1.globalStatus = w.globalStatus ∧
      occurrences Event.closeIMU (sampleStep x w l i).1.trace =
        occurrences Event.closeIMU w.trace ∧
      occurrences Event.clearIMUConnected (sampleStep x w l i).1.trace =
        occurrences Event.clearIMUConnected w.trace) := by
  by_cases h : numRetries < incUint8 l.failnum
  · simp [sampleStep, hi, imuFailure, h, World.emit, occurrences]
  · simp [sampleStep, hi, imuFailure, h, World.emit, occurrences]

/-- The cycle after the `select`, when the IMU read succeeds. -/
theorem sampleStep_success (x : Ext) (w : World) (l : AttLocals) (i : CycleInput)
    (hi : i.mpuError = false) :
    (sampleStep x w l i).2.failnum = 0 ∧
    keepsIMU w (sampleStep x w l i).1 ∧
    occurrences Event.fusionCompute (sampleStep x w l i).1.trace =
      occurrences Event.fusionCompute w.trace + 1 ∧
    (sampleStep x w l i).2.m =
      windStep x (if i.magError then w.emit [Event.readIMU, Event.logLine]
          else w.emit [Event.readIMU])
        (if i.magError then { readAndRotate l i with MValid := false } else readAndRotate l i)
        i.now := by
  have key : ∀ (w2 : World) (l4 : AttLocals), keepsIMU w w2 →
      occurrences Event.fusionCompute w2.trace = occurrences Event.fusionCompute w.trace →
      l4.failnum = 0 →
      (Prod.mk
        (analysisStep (listenerStep
          (publishStep x (w2.emit [Event.fusionCompute, Event.makeReport]) i) l4 i).1 i)
        (listenerStep
          (publishStep x (w2.emit [Event.fusionCompute, Event.makeReport]) i) l4 i).2).2.failnum
        = 0 ∧
      keepsIMU w (analysisStep (listenerStep
          (publishStep x (w2.emit [Event.fusionCompute, Event.makeReport]) i) l4 i).1 i) ∧
      occurrences Event.fusionCompute (analysisStep (listenerStep
          (publishStep x (w2.emit [Event.fusionCompute, Event.makeReport]) i) l4 i).1 i).trace =
        occurrences Event.fusionCompute w.trace + 1 ∧
      (listenerStep
          (publishStep x (w2.emit [Event.fusionCompute, Event.makeReport]) i) l4 i).2.m = l4.m := by
    intro w2 l4 hk hcomp hf
    obtain ⟨⟨p1, p2, p3, p4⟩, p5⟩ :=
      keepsIMU_publishStep x (w2.emit [Event.fusionCompute, Event.makeReport]) i
    obtain ⟨⟨q1, q2, q3, q4⟩, q5, q6, q7⟩ :=
      keepsIMU_listenerStep (publishStep x (w2.emit [Event.fusionCompute, Event.makeReport]) i) l4 i
    obtain ⟨⟨a1, a2, a3, a4⟩, a5⟩ := keepsIMU_analysisStep (listenerStep
          (publishStep x (w2.emit [Event.fusionCompute, Event.makeReport]) i) l4 i).1 i
    obtain ⟨k1, k2, k3, k4⟩ := hk
    have e1 : occurrences Event.closeIMU (w2.emit [Event.fusionCompute, Event.makeReport]).trace =
        occurrences Event.closeIMU w2.trace := by simp [World.emit, occurrences]
    have e2 : occurrences Event.clearIMUConnected
        (w2.emit [Event.fusionCompute, Event.makeReport]).trace =
        occurrences Event.clearIMUConnected w2.trace := by simp [World.emit, occurrences]
    have e3 : occurrences Event.fusionCompute
        (w2.emit [Event.fusionCompute, Event.makeReport]).trace =
        occurrences Event.fusionCompute w2.trace + 1 := by simp [World.emit, occurrences]
    have e4 : (w2.emit [Event.fusionCompute, Event.makeReport]).globalSettings = w2.globalSettings :=
      rfl
    have e5 : (w2.emit [Event.fusionCompute, Event.makeReport]).globalStatus = w2.globalStatus :=
      rfl
    refine ⟨by rw [q7, hf], ⟨?_, ?_, ?_, ?_⟩, ?_, q6⟩
    · rw [a1, q1, p1, e4, k1]
    · rw [a2, q2, p2, e5, k2]
    · rw [a3, q3, p3, e1, k3]
    · rw [a4, q4, p4, e2, k4]
    · rw [a5, q5, p5, e3, hcomp]
  cases hm : i.magError
  · have h := key (w.emit [Event.readIMU])
      { m := windStep x (w.emit [Event.readIMU]) (readAndRotate l i) i.now, ff := l.ff,
        failnum := 0, listener := l.listener }
      ⟨rfl, rfl, by simp [World.emit, occurrences], by simp [World.emit, occurrences]⟩
      (by simp [World.emit, occurrences]) rfl
    simpa [sampleStep, hi, hm] using h
  · have h := key ((w.emit [Event.readIMU]).emit [Event.logLine])
      { m := windStep x ((w.emit [Event.readIMU]).emit [Event.logLine])
          { readAndRotate l i with MValid := false } i.now, ff := l.ff,
        failnum := 0, listener := l.listener }
      ⟨rfl, rfl, by simp [World.emit, occurrences], by simp [World.emit, occurrences]⟩
      (by simp [World.emit, occurrences]) rfl
    simpa [sampleStep, hi, hm, World.emit] using h

theorem windStep_spec (x : Ext) (w : World) (m : Measurement) (now : Int) :
    ((windStep x w m now).WValid = true ↔
      now - w.mySituation.GPSLastGroundTrackTime < 3000000000) ∧
    (3000000000 ≤ now - w.mySituation.GPSLastGroundTrackTime →
      (windStep x w m now).WValid = false ∧ (windStep x w m now).W1 = m.W1 ∧
      (windStep x w m now).W2 = m.W2 ∧ (windStep x w m now).W3 = m.W3) := by
  by_cases h : timeSub now w.mySituation.GPSLastGroundTrackTime < 3000 * Millisecond
  · have h' := (timeSub_lt_window _ _).mp h
    refine ⟨by simp [windStep, h, h'], fun hge => absurd h' (not_lt.mpr hge)⟩
  · have h' : ¬ (now - w.mySituation.GPSLastGroundTrackTime < 3000000000) :=
      fun hh => h ((timeSub_lt_window _ _).mpr hh)
    refine ⟨by simp [windStep, h, h'], fun _ => by simp [windStep, h]⟩

/-- One cycle completes on settings that build a matrix; its effect on the
counter, the connection and the provider, by the outcome of the IMU read. -/
theorem attitudeCycle_counter (x : Ext) (w : World) (l : AttLocals) (i : CycleInput)
    (hset : buildsMatrix w.globalSettings) :
    ∃ r, attitudeCycle x w l i = some r ∧
      buildsMatrix r.1.globalSettings ∧
      r.1.globalSettings.IMU_Sensor_Enabled = w.globalSettings.IMU_Sensor_Enabled ∧
      (i.mpuError = true →
        r.2.failnum = incUint8 l.failnum ∧
        occurrences Event.fusionCompute r.1.trace = occurrences Event.fusionCompute w.trace ∧
        (numRetries < incUint8 l.failnum →
          r.1.globalStatus.IMUConnected = false ∧
          occurrences Event.closeIMU r.1.trace = occurrences Event.closeIMU w.trace + 1 ∧
          occurrences Event.clearIMUConnected r.1.trace =
            occurrences Event.clearIMUConnected w.trace + 1) ∧
        (¬ numRetries < incUint8 l.failnum →
          r.1.globalStatus = w.globalStatus ∧
          occurrences Event.closeIMU r.1.trace = occurrences Event.closeIMU w.trace ∧
          occurrences Event.clearIMUConnected r.1.trace =
            occurrences Event.clearIMUConnected w.trace)) ∧
      (i.mpuError = false →
        r.2.failnum = 0 ∧
        r.1.globalStatus = w.globalStatus ∧
        occurrences Event.closeIMU r.1.trace = occurrences Event.closeIMU w.trace ∧
        occurrences Event.clearIMUConnected r.1.trace =
          occurrences Event.clearIMUConnected w.trace ∧
        occurrences Event.fusionCompute r.1.trace =
          occurrences Event.fusionCompute w.trace + 1) := by
  obtain ⟨c, hc, c1, c2, c3, _, _, c6, c7, c8, c9⟩ :=
    cageStep_frame (w.emit [Event.timerTick]) l i hset
  have t1 : occurrences Event.closeIMU (w.emit [Event.timerTick]).trace =
      occurrences Event.closeIMU w.trace := by simp [World.emit, occurrences]
  have t2 : occurrences Event.clearIMUConnected (w.emit [Event.timerTick]).trace =
      occurrences Event.clearIMUConnected w.trace := by simp [World.emit, occurrences]
  have t3 : occurrences Event.fusionCompute (w.emit [Event.timerTick]).trace =
      occurrences Event.fusionCompute w.trace := by simp [World.emit, occurrences]
  have t4 : (w.emit [Event.timerTick]).globalStatus = w.globalStatus := rfl
  have t5 : (w.emit [Event.timerTick]).globalSettings = w.globalSettings := rfl
  rw [t1] at c7
  rw [t2] at c8
  rw [t3] at c9
  rw [t4] at c3
  rw [t5] at c2
  refine ⟨sampleStep x c.1 c.2 i, by simp [attitudeCycle, hc], ?_, ?_, ?_, ?_⟩
  · cases hi : i.mpuError
    · rw [(sampleStep_success x c.1 c.2 i hi).2.1.1]; exact c1
    · rw [(sampleStep_failure x c.1 c.2 i hi).2.1]; exact c1
  · cases hi : i.mpuError
    · rw [(sampleStep_success x c.1 c.2 i hi).2.1.1]; exact c2
    · rw [(sampleStep_failure x c.1 c.2 i hi).2.1]; exact c2
  · intro hi
    obtain ⟨f1, _, f3, f4, f5⟩ := sampleStep_failure x c.1 c.2 i hi
    rw [c6] at f1 f4 f5
    refine ⟨f1, by rw [f3, c9], ?_, ?_⟩
    · intro h
      obtain ⟨g1, g2, g3⟩ := f4 h
      exact ⟨g1, by rw [g2, c7], by rw [g3, c8]⟩
    · intro h
      obtain ⟨g1, g2, g3⟩ := f5 h
      exact ⟨by rw [g1, c3], by rw [g2, c7], by rw [g3, c8]⟩
  · intro hi
    obtain ⟨f1, ⟨_, k2, k3, k4⟩, f3, _⟩ := sampleStep_success x c.1 c.2 i hi
    exact ⟨f1, by rw [k2, c3], by rw [k3, c7], by rw [k4, c8], by rw [f3, c9]⟩

theorem trailingErrors_le_length (p : List CycleInput) : trailingErrors p ≤ p.length := by
  unfold trailingErrors
  have h := (@List.takeWhile_prefix _ p.reverse (fun i : CycleInput => i.mpuError)).length_le
  simpa using h

theorem trailingErrors_append (p : List CycleInput) (i : CycleInput) :
    trailingErrors (p ++ [i]) = if i.mpuError = true then trailingErrors p + 1 else 0 := by
  cases h : i.mpuError <;> simp [trailingErrors, List.takeWhile_cons, h]

/-- While the loop is waiting, later cycles continue from the state reached. -/
theorem attitudeLoop_append_waiting (x : Ext) (p : List CycleInput) :
    ∀ (w : World) (l : AttLocals) (q : List CycleInput) (r : World × AttLocals × LoopStatus),
      attitudeLoop x w l p = some r → r.2.2 = LoopStatus.waiting →
      attitudeLoop x w l (p ++ q) = attitudeLoop x r.1 r.2.1 q := by
  induction p with
  | nil =>
    intro w l q r h hw
    simp only [attitudeLoop, Option.some.injEq] at h
    subst h
    simp
  | cons i rest ih =>
    intro w l q r h hw
    cases hc : imuCondition w
    · simp only [attitudeLoop, hc, Bool.false_eq_true, if_false, Option.some.injEq] at h
      subst h
      simp at hw
    · cases hb : attitudeCycle x w l i with
      | none => simp [attitudeLoop, hc, hb] at h
      | some c =>
        simp only [attitudeLoop, hc, hb, if_true] at h
        simp only [List.cons_append, attitudeLoop, hc, hb, if_true]
        exact ih _ _ q r h hw

/-- From a zero counter, as long as no six consecutive IMU reads have failed, the
loop is waiting with the IMU connected and nothing closed, and the counter is
the number of read errors since the last successful read. -/
theorem attitudeLoop_quiet (x : Ext) (w : World) (l : AttLocals)
    (hc : imuCondition w = true) (hset : buildsMatrix w.globalSettings) (hf : l.failnum = 0)
    (is : List CycleInput) :
    (∀ p, p <+: is → trailingErrors p ≤ 5) →
    ∃ r, attitudeLoop x w l is = some r ∧
      r.2.2 = LoopStatus.waiting ∧ imuCondition r.1 = true ∧
      buildsMatrix r.1.globalSettings ∧
      r.2.1.failnum = trailingErrors is ∧
      occurrences Event.closeIMU r.1.trace = occurrences Event.closeIMU w.trace ∧
      occurrences Event.clearIMUConnected r.1.trace =
        occurrences Event.clearIMUConnected w.trace := by
  induction is using List.reverseRecOn with
  | nil =>
    intro _
    exact ⟨(w, l, LoopStatus.waiting), by simp [attitudeLoop, hc], rfl, hc, hset,
      by simp [hf, trailingErrors], rfl, rfl⟩
  | append_singleton p i ih =>
    intro hq
    obtain ⟨r, h1, h2, h3, h4, h5, h6, h7⟩ :=
      ih (fun q hqp => hq q (hqp.trans (List.prefix_append p [i])))
    obtain ⟨c, hcy, c1, c2, cf, cs⟩ := attitudeCycle_counter x r.1 r.2.1 i h4
    have hp5 : trailingErrors p ≤ 5 := hq p (List.prefix_append p [i])
    have hpi : trailingErrors (p ++ [i]) ≤ 5 := hq _ (List.prefix_refl _)
    have hrun : attitudeLoop x w l (p ++ [i]) =
        some (c.1, c.2, if imuCondition c.1 then LoopStatus.waiting else LoopStatus.exited) := by
      rw [attitudeLoop_append_waiting x p w l [i] r h1 h2]
      simp [attitudeLoop, h3, hcy]
    have hen : r.1.globalSettings.IMU_Sensor_Enabled = true ∧
        r.1.globalStatus.IMUConnected = true := by
      simpa [imuCondition] using h3
    rw [trailingErrors_append] at hpi ⊢
    cases hi : i.mpuError
    · obtain ⟨s1, s2, s3, s4, _⟩ := cs hi
      have hcond : imuCondition c.1 = true := by
        simp [imuCondition, c2, s2, hen.1, hen.2]
      exact ⟨_, hrun, by simp [hcond], hcond, c1, by simpa using s1, by rw [s3, h6],
        by rw [s4, h7]⟩
    · simp only [hi, if_true] at hpi
      obtain ⟨f1, _, _, f4⟩ := cf hi
      have hinc : incUint8 r.2.1.failnum = trailingErrors p + 1 := by
        rw [h5]; unfold incUint8; omega
      have hno : ¬ numRetries < incUint8 r.2.1.failnum := by
        rw [hinc]; unfold numRetries; omega
      obtain ⟨g1, g2, g3⟩ := f4 hno
      have hcond : imuCondition c.1 = true := by
        simp [imuCondition, c2, g1, hen.1, hen.2]
      exact ⟨_, hrun, by simp [hcond], hcond, c1, by simp [f1, hinc], by rw [g2, h6],
        by rw [g3, h7]⟩

/-- C2 (the claim as stated fails): a cage request whose calibration returns an
error still ends with a call of `reset()`: from an empty trace the cage step
leaves exactly the calls calibrate, log, reset. -/
theorem C2_reset_after_failed_calibration :
    ∃ r, cageStep World.sample AttLocals.sample (cageRequest false) = some r ∧
      World.sample.trace = [] ∧
      r.1.trace = [Event.calibrateIMU, Event.logLine, Event.fusionReset] ∧
      occurrences Event.fusionReset r.1.trace = 1 :=
  ⟨_, cageStep_calibration_error World.sample AttLocals.sample (cageRequest false) rfl rfl,
    rfl, rfl, rfl⟩

/-- C2 (amended): in a cycle that receives a cage request the cage step calls the
calibration routine once.  When calibration returns an error the step
completes, the matrix, the other locals and the settings are unchanged, the
calls of the step are calibrate, log, reset, so `reset()` is called exactly
once, and the calibrating flag is false afterwards.  When calibration succeeds
and `makeSensorRotationMatrix` returns a matrix on the current settings, the
step completes, the matrix is replaced by the rebuilt one, then `reset()` is
called exactly once, and the calibrating flag is false afterwards.  The step
fails to complete exactly when calibration succeeds and
`makeSensorRotationMatrix` panics.  So every cage step that completes has
called `reset()` once and left the flag false, whatever the calibration
outcome. -/
theorem C2_cage_step (w : World) (l : AttLocals) (i : CycleInput) (hcage : i.cage = true) :
    (i.calibrateOk = false →
      ∃ r, cageStep w l i = some r ∧ r.2 = l ∧ r.1.globalSettings = w.globalSettings ∧
        r.1.ahrsCalibrating = false ∧
        r.1.trace = w.trace ++ [Event.calibrateIMU, Event.logLine, Event.fusionReset] ∧
        occurrences Event.fusionReset r.1.trace = occurrences Event.fusionReset w.trace + 1 ∧
        occurrences Event.calibrateIMU r.1.trace =
          occurrences Event.calibrateIMU w.trace + 1) ∧
    (i.calibrateOk = true → buildsMatrix w.globalSettings →
      ∃ r R, (makeSensorRotationMatrix w.globalSettings).2.2 = some R ∧
        cageStep w l i = some r ∧ r.2.ff = R ∧
        r.1.globalSettings = (makeSensorRotationMatrix w.globalSettings).1 ∧
        r.1.ahrsCalibrating = false ∧
        r.1.trace = w.trace ++ [Event.calibrateIMU, Event.logLine] ++
          (makeSensorRotationMatrix w.globalSettings).2.1 ++ [Event.fusionReset] ∧
        occurrences Event.fusionReset r.1.trace = occurrences Event.fusionReset w.trace + 1 ∧
        occurrences Event.calibrateIMU r.1.trace =
          occurrences Event.calibrateIMU w.trace + 1) ∧
    (cageStep w l i = none ↔ (i.calibrateOk = true ∧ ¬ buildsMatrix w.globalSettings)) ∧
    (∀ r, cageStep w l i = some r →
      r.1.ahrsCalibrating = false ∧
      occurrences Event.fusionReset r.1.trace = occurrences Event.fusionReset w.trace + 1 ∧
      occurrences Event.calibrateIMU r.1.trace =
        occurrences Event.calibrateIMU w.trace + 1) := by
  have hfail : i.calibrateOk = false →
      ∃ r, cageStep w l i = some r ∧ r.2 = l ∧ r.1.globalSettings = w.globalSettings ∧
        r.1.ahrsCalibrating = false ∧
        r.1.trace = w.trace ++ [Event.calibrateIMU, Event.logLine, Event.fusionReset] ∧
        occurrences Event.fusionReset r.1.trace = occurrences Event.fusionReset w.trace + 1 ∧
        occurrences Event.calibrateIMU r.1.trace =
          occurrences Event.calibrateIMU w.trace + 1 := by
    intro hcal
    exact ⟨_, cageStep_calibration_error w l i hcage hcal, rfl, rfl, rfl, rfl,
      by simp [occurrences], by simp [occurrences]⟩
  have hsucc : i.calibrateOk = true → buildsMatrix w.globalSettings →
      ∃ r R, (makeSensorRotationMatrix w.globalSettings).2.2 = some R ∧
        cageStep w l i = some r ∧ r.2.ff = R ∧
        r.1.globalSettings = (makeSensorRotationMatrix w.globalSettings).1 ∧
        r.1.ahrsCalibrating = false ∧
        r.1.trace = w.trace ++ [Event.calibrateIMU, Event.logLine] ++
          (makeSensorRotationMatrix w.globalSettings).2.1 ++ [Event.fusionReset] ∧
        occurrences Event.fusionReset r.1.trace = occurrences Event.fusionReset w.trace + 1 ∧
        occurrences Event.calibrateIMU r.1.trace =
          occurrences Event.calibrateIMU w.trace + 1 := by
    intro hcal hset
    obtain ⟨R, hR⟩ := Option.isSome_iff_exists.mp hset
    obtain ⟨_, _, _, _, _, s6, s7⟩ := buildsMatrix_stable w.globalSettings hset
    refine ⟨_, R, hR, cageStep_calibration_ok w l i R hcage hcal hR, rfl, rfl, rfl, rfl, ?_, ?_⟩
    · simpa [occurrences] using s6
    · simpa [occurrences] using s7
  have hnone : i.calibrateOk = true → ¬ buildsMatrix w.globalSettings →
      cageStep w l i = none := by
    intro hcal hno
    have hR : (makeSensorRotationMatrix w.globalSettings).2.2 = none := by
      cases h : (makeSensorRotationMatrix w.globalSettings).2.2 with
      | none => rfl
      | some R => exact absurd (show buildsMatrix w.globalSettings by
          unfold buildsMatrix; rw [h]; rfl) hno
    simp only [cageStep, hcage, hcal, if_true, World.emit]
    rw [hR]
  refine ⟨hfail, hsucc, ⟨?_, fun h => hnone h.1 h.2⟩, ?_⟩
  · intro hn
    cases hcal : i.calibrateOk
    · obtain ⟨r, hr, _⟩ := hfail hcal
      rw [hn] at hr
      exact absurd hr (by simp)
    · refine ⟨rfl, fun hset => ?_⟩
      obtain ⟨r, _, _, hr, _⟩ := hsucc hcal hset
      rw [hn] at hr
      exact absurd hr (by simp)
  · intro r hr
    cases hcal : i.calibrateOk
    · obtain ⟨r0, hr0, _, _, h3, _, h5, h6⟩ := hfail hcal
      rw [hr, Option.some.injEq] at hr0
      subst hr0
      exact ⟨h3, h5, h6⟩
    · by_cases hset : buildsMatrix w.globalSettings
      · obtain ⟨r0, _, _, hr0, _, _, h3, _, h5, h6⟩ := hsucc hcal hset
        rw [hr, Option.some.injEq] at hr0
        subst hr0
        exact ⟨h3, h5, h6⟩
      · rw [hnone hcal hset] at hr
        exact absurd hr (by simp)

/-- C2 at a cage request whose calibration returns an error and at one whose
calibration succeeds, both on the default orientation, and at a successful
calibration on the selectors `(2, 0)`, where the rebuild panics. -/
theorem C2_cage_step_witness :
    (∃ r, cageStep World.sample AttLocals.sample (cageRequest false) = some r ∧
      r.2 = AttLocals.sample ∧ r.1.globalSettings = World.sample.globalSettings ∧
      r.1.ahrsCalibrating = false ∧
      r.1.trace = World.sample.trace ++
        [Event.calibrateIMU, Event.logLine, Event.fusionReset] ∧
      occurrences Event.fusionReset r.1.trace =
        occurrences Event.fusionReset World.sample.trace + 1 ∧
      occurrences Event.calibrateIMU r.1.trace =
        occurrences Event.calibrateIMU World.sample.trace + 1) ∧
    (∃ r R, (makeSensorRotationMatrix World.sample.globalSettings).2.2 = some R ∧
      cageStep World.sample AttLocals.sample (cageRequest true) = some r ∧ r.2.ff = R ∧
      r.1.globalSettings = (makeSensorRotationMatrix World.sample.globalSettings).1 ∧
      r.1.ahrsCalibrating = false ∧
      r.1.trace = World.sample.trace ++ [Event.calibrateIMU, Event.logLine] ++
        (makeSensorRotationMatrix World.sample.globalSettings).2.1 ++ [Event.fusionReset] ∧
      occurrences Event.fusionReset r.1.trace =
        occurrences Event.fusionReset World.sample.trace + 1 ∧
      occurrences Event.calibrateIMU r.1.trace =
        occurrences Event.calibrateIMU World.sample.trace + 1) ∧
    cageStep { World.sample with globalSettings := settingsWith 2 0 } AttLocals.sample
      (cageRequest true) = none :=
  ⟨(C2_cage_step World.sample AttLocals.sample (cageRequest false) rfl).1 rfl,
    (C2_cage_step World.sample AttLocals.sample (cageRequest true) rfl).2.1 rfl rfl,
    (C2_cage_step { World.sample with globalSettings := settingsWith 2 0 } AttLocals.sample
      (cageRequest true) rfl).2.2.1.mpr
      ⟨rfl, fun h => absurd h (by unfold buildsMatrix; decide)⟩⟩

/-- C7: in a cycle whose IMU read succeeds, `WValid` is true exactly when the
sample time minus the time of the last ground-track update is below three
seconds; when that age is three seconds or more, `WValid` is false and `W1`,
`W2`, `W3` keep the values they had before the cycle.  The cycle completes on
all settings from which the orientation matrix can be built. -/
theorem C7_wind_validity (x : Ext) (w : World) (l : AttLocals) (i : CycleInput)
    (hi : i.mpuError = false) :
    (buildsMatrix w.globalSettings → ∃ r, attitudeCycle x w l i = some r) ∧
    (∀ r, attitudeCycle x w l i = some r →
      (r.2.m.WValid = true ↔ i.now - w.mySituation.GPSLastGroundTrackTime < 3000000000) ∧
      (3000000000 ≤ i.now - w.mySituation.GPSLastGroundTrackTime →
        r.2.m.WValid = false ∧ r.2.m.W1 = l.m.W1 ∧ r.2.m.W2 = l.m.W2 ∧
        r.2.m.W3 = l.m.W3)) := by
  refine ⟨fun hset => ?_, fun r hr => ?_⟩
  · obtain ⟨r, hr, _⟩ := attitudeCycle_counter x w l i hset
    exact ⟨r, hr⟩
  · cases hcs : cageStep (w.emit [Event.timerTick]) l i with
    | none => simp [attitudeCycle, hcs] at hr
    | some c =>
      obtain ⟨c4, c5⟩ := cageStep_keeps _ l i c hcs
      have hsit : c.1.mySituation = w.mySituation := c4
      have hm := (sampleStep_success x c.1 c.2 i hi).2.2.2
      simp only [attitudeCycle, hcs, Option.some.injEq] at hr
      subst hr
      refine ⟨?_, ?_⟩
      · rw [hm]
        cases hmag : i.magError
        · simpa [World.emit, hsit] using
            (windStep_spec x (c.1.emit [Event.readIMU]) (readAndRotate c.2 i) i.now).1
        · simpa [World.emit, hsit] using
            (windStep_spec x (c.1.emit [Event.readIMU, Event.logLine])
              { readAndRotate c.2 i with MValid := false } i.now).1
      · intro hage
        rw [hm]
        cases hmag : i.magError
        · have h := (windStep_spec x (c.1.emit [Event.readIMU]) (readAndRotate c.2 i) i.now).2
            (by simpa [World.emit, hsit] using hage)
          simpa [readAndRotate, c5] using h
        · have h := (windStep_spec x (c.1.emit [Event.readIMU, Event.logLine])
              { readAndRotate c.2 i with MValid := false } i.now).2
            (by simpa [World.emit, hsit] using hage)
          simpa [readAndRotate, c5] using h

/-- C7 at a cycle five seconds after the last ground-track update. -/
theorem C7_wind_validity_witness :
    (buildsMatrix World.sample.globalSettings →
      ∃ r, attitudeCycle Ext.sample World.sample AttLocals.sample (cycleTick true 5000000000)
        = some r) ∧
    (∀ r, attitudeCycle Ext.sample World.sample AttLocals.sample (cycleTick true 5000000000)
        = some r →
      (r.2.m.WValid = true ↔
        (cycleTick true 5000000000).now - World.sample.mySituation.GPSLastGroundTrackTime
          < 3000000000) ∧
      (3000000000 ≤
          (cycleTick true 5000000000).now - World.sample.mySituation.GPSLastGroundTrackTime →
        r.2.m.WValid = false ∧ r.2.m.W1 = AttLocals.sample.m.W1 ∧
        r.2.m.W2 = AttLocals.sample.m.W2 ∧ r.2.m.W3 = AttLocals.sample.m.W3)) :=
  C7_wind_validity Ext.sample World.sample AttLocals.sample (cycleTick true 5000000000) rfl

/-- C5 (the claim as stated fails): after five consecutive IMU read errors from
a zero counter the counter is `5`, yet the driver has not been closed, the IMU
is still marked connected and the loop is still waiting for its next cycle. -/
theorem C5_no_disconnect_at_five :
    ∃ r, attitudeLoop Ext.sample World.sample AttLocals.sample
        (List.replicate 5 (cycleTick false 0)) = some r ∧
      trailingErrors (List.replicate 5 (cycleTick false 0)) = 5 ∧
      r.2.1.failnum = 5 ∧
      occurrences Event.closeIMU r.1.trace = 0 ∧
      occurrences Event.clearIMUConnected r.1.trace = 0 ∧
      r.1.globalStatus.IMUConnected = true ∧
      r.2.2 = LoopStatus.waiting :=
  ⟨_, rfl, by decide, by decide, by decide, by decide, by decide, by decide⟩

/-- C5 (amended): the attitude loop is entered with a zero counter, enabled and
connected, and has run cycles `is` among which no six consecutive IMU reads
failed.  Then it is still waiting and connected, nothing was closed, and the
counter is the number of read errors since the last successful read.  In the
next cycle `i` a successful read resets the counter to zero and runs the
compute step once; a failed read increments the counter and does not run the
compute step, and it closes the driver and clears the connected flag exactly
when the counter thereby reaches `6`, that is, exceeds `numRetries = 5`; the
loop then exits. -/
theorem C5_imu_failure_counter (x : Ext) (w : World) (l : AttLocals) (is : List CycleInput)
    (i : CycleInput) (hc : imuCondition w = true) (hset : buildsMatrix w.globalSettings)
    (hf : l.failnum = 0) (hq : ∀ p, p <+: is → trailingErrors p ≤ 5) :
    ∃ r s, attitudeLoop x w l is = some r ∧ attitudeLoop x w l (is ++ [i]) = some s ∧
      r.2.2 = LoopStatus.waiting ∧ r.1.globalStatus.IMUConnected = true ∧
      r.2.1.failnum = trailingErrors is ∧
      occurrences Event.closeIMU r.1.trace = occurrences Event.closeIMU w.trace ∧
      occurrences Event.clearIMUConnected r.1.trace =
        occurrences Event.clearIMUConnected w.trace ∧
      (i.mpuError = false →
        s.2.1.failnum = 0 ∧ s.2.2 = LoopStatus.waiting ∧
        s.1.globalStatus.IMUConnected = true ∧
        occurrences Event.closeIMU s.1.trace = occurrences Event.closeIMU w.trace ∧
        occurrences Event.clearIMUConnected s.1.trace =
          occurrences Event.clearIMUConnected w.trace ∧
        occurrences Event.fusionCompute s.1.trace =
          occurrences Event.fusionCompute r.1.trace + 1) ∧
      (i.mpuError = true →
        s.2.1.failnum = trailingErrors is + 1 ∧
        occurrences Event.fusionCompute s.1.trace = occurrences Event.fusionCompute r.1.trace ∧
        (trailingErrors is < 5 →
          s.2.2 = LoopStatus.waiting ∧ s.1.globalStatus.IMUConnected = true ∧
          occurrences Event.closeIMU s.1.trace = occurrences Event.closeIMU w.trace ∧
          occurrences Event.clearIMUConnected s.1.trace =
            occurrences Event.clearIMUConnected w.trace) ∧
        (trailingErrors is = 5 →
          s.2.2 = LoopStatus.exited ∧ s.1.globalStatus.IMUConnected = false ∧
          occurrences Event.closeIMU s.1.trace = occurrences Event.closeIMU w.trace + 1 ∧
          occurrences Event.clearIMUConnected s.1.trace =
            occurrences Event.clearIMUConnected w.trace + 1)) := by
  obtain ⟨r, h1, h2, h3, h4, h5, h6, h7⟩ := attitudeLoop_quiet x w l hc hset hf is hq
  obtain ⟨c, hcy, _, c2, cf, cs⟩ := attitudeCycle_counter x r.1 r.2.1 i h4
  have hp5 : trailingErrors is ≤ 5 := hq is (List.prefix_refl _)
  have hrun : attitudeLoop x w l (is ++ [i]) =
      some (c.1, c.2, if imuCondition c.1 then LoopStatus.waiting else LoopStatus.exited) := by
    rw [attitudeLoop_append_waiting x is w l [i] r h1 h2]
    simp [attitudeLoop, h3, hcy]
  have hen : r.1.globalSettings.IMU_Sensor_Enabled = true ∧
      r.1.globalStatus.IMUConnected = true := by
    simpa [imuCondition] using h3
  refine ⟨r, _, h1, hrun, h2, hen.2, h5, h6, h7, ?_, ?_⟩
  · intro hi
    obtain ⟨s1, s2, s3, s4, s5⟩ := cs hi
    have hcond : imuCondition c.1 = true := by
      simp [imuCondition, c2, s2, hen.1, hen.2]
    exact ⟨s1, by simp [hcond], by rw [s2]; exact hen.2, by rw [s3, h6], by rw [s4, h7], s5⟩
  · intro hi
    obtain ⟨f1, f2, f3, f4⟩ := cf hi
    have hinc : incUint8 r.2.1.failnum = trailingErrors is + 1 := by
      rw [h5]; unfold incUint8; omega
    refine ⟨by rw [f1, hinc], f2, ?_, ?_⟩
    · intro hlt
      have hno : ¬ numRetries < incUint8 r.2.1.failnum := by
        rw [hinc]; unfold numRetries; omega
      obtain ⟨g1, g2, g3⟩ := f4 hno
      have hcond : imuCondition c.1 = true := by
        simp [imuCondition, c2, g1, hen.1, hen.2]
      exact ⟨by simp [hcond], by rw [g1]; exact hen.2, by rw [g2, h6], by rw [g3, h7]⟩
    · intro heq
      have hyes : numRetries < incUint8 r.2.1.failnum := by
        rw [hinc]; unfold numRetries; omega
      obtain ⟨g1, g2, g3⟩ := f3 hyes
      have hcond : imuCondition c.1 = false := by
        simp [imuCondition, g1]
      exact ⟨by simp [hcond], g1, by rw [g2, h6], by rw [g3, h7]⟩

/-- C5 at five failed reads followed by a sixth. -/
theorem C5_imu_failure_counter_witness :
    ∃ r s, attitudeLoop Ext.sample World.sample AttLocals.sample
        (List.replicate 5 (cycleTick false 0)) = some r ∧
      attitudeLoop Ext.sample World.sample AttLocals.sample
        (List.replicate 5 (cycleTick false 0) ++ [cycleTick false 0]) = some s ∧
      r.2.2 = LoopStatus.waiting ∧ r.1.globalStatus.IMUConnected = true ∧
      r.2.1.failnum = trailingErrors (List.replicate 5 (cycleTick false 0)) ∧
      occurrences Event.closeIMU r.1.trace = occurrences Event.closeIMU World.sample.trace ∧
      occurrences Event.clearIMUConnected r.1.trace =
        occurrences Event.clearIMUConnected World.sample.trace ∧
      ((cycleTick false 0).mpuError = false →
        s.2.1.failnum = 0 ∧ s.2.2 = LoopStatus.waiting ∧
        s.1.globalStatus.IMUConnected = true ∧
        occurrences Event.closeIMU s.1.trace = occurrences Event.closeIMU World.sample.trace ∧
        occurrences Event.clearIMUConnected s.1.trace =
          occurrences Event.clearIMUConnected World.sample.trace ∧
        occurrences Event.fusionCompute s.1.trace =
          occurrences Event.fusionCompute r.1.trace + 1) ∧
      ((cycleTick false 0).mpuError = true →
        s.2.1.failnum = trailingErrors (List.replicate 5 (cycleTick false 0)) + 1 ∧
        occurrences Event.fusionCompute s.1.trace = occurrences Event.fusionCompute r.1.trace ∧
        (trailingErrors (List.replicate 5 (cycleTick false 0)) < 5 →
          s.2.2 = LoopStatus.waiting ∧ s.1.globalStatus.IMUConnected = true ∧
          occurrences Event.closeIMU s.1.trace =
            occurrences Event.closeIMU World.sample.trace ∧
          occurrences Event.clearIMUConnected s.1.trace =
            occurrences Event.clearIMUConnected World.sample.trace) ∧
        (trailingErrors (List.replicate 5 (cycleTick false 0)) = 5 →
          s.2.2 = LoopStatus.exited ∧ s.1.globalStatus.IMUConnected = false ∧
          occurrences Event.closeIMU s.1.trace =
            occurrences Event.closeIMU World.sample.trace + 1 ∧
          occurrences Event.clearIMUConnected s.1.trace =
            occurrences Event.clearIMUConnected World.sample.trace + 1)) :=
  C5_imu_failure_counter Ext.sample World.sample AttLocals.sample
    (List.replicate 5 (cycleTick false 0)) (cycleTick false 0) rfl rfl rfl (by
      intro p hp
      have hlen : p.length ≤ 5 := by
        have := hp.length_le
        simpa using this
      exact le_trans (trailingErrors_le_length p) hlen)

/-! ## The status byte -/

/-- C6: the status byte written by one tick of `updateAHRSStatus` is
`b0 + 2*b1 + 4*b2 + 8*b3 + 16*b4` with `b0` = the ground-track age is below
three seconds, `b1` = IMU enabled and connected, `b2` = barometer enabled and
connected, `b3` = calibrating, `b4` = `b1` and a logger is present.  Hence bit 4
is never set without bit 1, the value is at most `31`, and with the IMU in use,
the barometer not in use, calibrating, a stale track and no logger the value is
`0b01010`. -/
theorem C6_status_byte (w : World) (now : Int) :
    (updateAHRSStatus w now).mySituation.AHRSStatus =
      (decide (now - w.mySituation.GPSLastGroundTrackTime < 3000000000)).toNat +
      2 * (w.globalSettings.IMU_Sensor_Enabled && w.globalStatus.IMUConnected).toNat +
      4 * (w.globalSettings.BMP_Sensor_Enabled && w.globalStatus.BMPConnected).toNat +
      8 * w.ahrsCalibrating.toNat +
      16 * ((w.globalSettings.IMU_Sensor_Enabled && w.globalStatus.IMUConnected) &&
        w.analysisLogger).toNat ∧
    ((updateAHRSStatus w now).mySituation.AHRSStatus.testBit 4 = true →
      (updateAHRSStatus w now).mySituation.AHRSStatus.testBit 1 = true) ∧
    (updateAHRSStatus w now).mySituation.AHRSStatus ≤ 31 ∧
    ((w.globalSettings.IMU_Sensor_Enabled && w.globalStatus.IMUConnected) = true →
      (w.globalSettings.BMP_Sensor_Enabled && w.globalStatus.BMPConnected) = false →
      w.ahrsCalibrating = true →
      3000000000 ≤ now - w.mySituation.GPSLastGroundTrackTime →
      w.analysisLogger = false →
      (updateAHRSStatus w now).mySituation.AHRSStatus = 0b01010) := by
  have ht := timeSub_lt_window now w.mySituation.GPSLastGroundTrackTime
  obtain ⟨⟨ie, be, mp, lg⟩, ⟨ic, bc⟩, sit, cal, al, tr⟩ := w
  simp only [updateAHRSStatus, statusByte, World.emit] at ht ⊢
  by_cases h : now - sit.GPSLastGroundTrackTime < 3000000000
  · have h' := ht.mpr h
    cases ie <;> cases ic <;> cases be <;> cases bc <;> cases cal <;> cases al <;>
      simp [h, h', addUint8, Nat.testBit]
  · have h' : ¬ timeSub now sit.GPSLastGroundTrackTime < 3000 * Millisecond :=
      fun hh => h (ht.mp hh)
    cases ie <;> cases ic <;> cases be <;> cases bc <;> cases cal <;> cases al <;>
      simp [h, h', addUint8, Nat.testBit]

/-- C6 at the example of the specification: IMU in use, barometer not
connected, calibrating, stale track, no logger. -/
theorem C6_status_byte_witness :
    (updateAHRSStatus { World.sample with
        globalStatus := { IMUConnected := true, BMPConnected := false }
        ahrsCalibrating := true } 10000000000).mySituation.AHRSStatus = 0b01010 :=
  (C6_status_byte { World.sample with
      globalStatus := { IMUConnected := true, BMPConnected := false }
      ahrsCalibrating := true } 10000000000).2.2.2 rfl rfl rfl (by decide) rfl

end Stratux
